import Mathlib

/-!
Verification development for the Website Grader analysis engine
(`website_grader_v4.py`, class `WebsiteGraderV4`).

The nine category analyzers, the weighted aggregator, the classification
thresholds and the fetch/retry/blocked/error control flow are embedded as
executable Lean definitions over an explicit page model.  Scores are exact
rationals (the Python code only ever adds decimal literals such as 0.25,
0.5, 1.5, all exactly representable).

External collaborators, exactly as the specification delimits them, are
modelled as inputs rather than re-implemented:
* the HTTP fetcher delivers a `Response` (status code, headers, cookies,
  elapsed time, parsed document, body length);
* the HTML parser delivers the document as a flat list of `Elem` values in
  document order, supporting the find-by-tag / attribute-lookup primitives
  the analyzers use;
* the TLS certificate probe delivers an `Option Cert`;
* the regex engine over the raw body delivers the per-pattern match
  observations collected in `HtmlObs` (one named field per regex the source
  runs against the raw HTML string); simple substring / Python-level string
  operations that the analyzers perform themselves are implemented here.
-/

namespace WebsiteGrader

/-! ## String primitives (Python `str` operations used by the analyzers) -/

/-- Lower-casing of an ASCII character, as Python `str.lower` acts on the
ASCII range used by the analyzers. -/
def lcChar (c : Char) : Char :=
  if c.toNat ≥ 65 ∧ c.toNat ≤ 90 then Char.ofNat (c.toNat + 32) else c

/-- Python `str.lower`. -/
def lcStr (s : String) : String := String.mk (s.data.map lcChar)

/-- Does `pat` occur as a leading segment of `l`? -/
def listStarts [DecidableEq α] : List α → List α → Bool
  | [], _ => true
  | _ :: _, [] => false
  | p :: ps, c :: cs => p = c && listStarts ps cs

/-- Does `pat` occur as a contiguous segment of `l`?  (Python `in` on
strings, `re.search` of a literal pattern.) -/
def listHasSub [DecidableEq α] (pat : List α) : List α → Bool
  | [] => pat.isEmpty
  | c :: cs => listStarts pat (c :: cs) || listHasSub pat cs

/-- Python `pat in s` (substring containment). -/
def strContains (s pat : String) : Bool := listHasSub pat.data s.data

/-- Python `s.startswith(pat)`. -/
def strStarts (s pat : String) : Bool := listStarts pat.data s.data

/-- Strip leading whitespace. -/
def trimLeft : List Char → List Char
  | [] => []
  | c :: cs => if c.isWhitespace then trimLeft cs else c :: cs

/-- Python `str.strip()`. -/
def strTrim (s : String) : String :=
  String.mk ((trimLeft ((trimLeft s.data).reverse)).reverse)

/-- A word character in the sense of the regex class used by the source
(`[A-Za-z0-9_]`, ASCII inputs). -/
def isWordChar (c : Char) : Bool :=
  (97 ≤ c.toNat && c.toNat ≤ 122) || (65 ≤ c.toNat && c.toNat ≤ 90) ||
  (48 ≤ c.toNat && c.toNat ≤ 57) || c = '_'

/-- Helper for `words`: split a character list at non-word characters,
carrying the (reversed) current word. -/
def wordsAux : List Char → List Char → List String
  | [], [] => []
  | [], acc => [String.mk acc.reverse]
  | c :: cs, acc =>
    if isWordChar c then wordsAux cs (c :: acc)
    else match acc with
      | [] => wordsAux cs []
      | _ :: _ => String.mk acc.reverse :: wordsAux cs []

/-- All maximal word-character runs of a string: the match list of
`re.findall` with the word pattern, as used for title/H1/path tokens and
for the word count of the content analyzer. -/
def words (s : String) : List String := wordsAux s.data []

/-- Number of distinct elements shared by two token lists (Python
`set(a).intersection(set(b))` cardinality). -/
def commonCount (a b : List String) : Nat :=
  (a.dedup.filter (fun w => b.contains w)).length

/-- Helper for `splitChar`: split a character list at a separator,
carrying the (reversed) current chunk. -/
def splitCharAux (sep : Char) : List Char → List Char → List String
  | [], acc => [String.mk acc.reverse]
  | c :: cs, acc =>
    if c = sep then String.mk acc.reverse :: splitCharAux sep cs []
    else splitCharAux sep cs (c :: acc)

/-- Split a string at every occurrence of a separator character (Python
`str.split(sep)` with a one-character separator). -/
def splitChar (s : String) (sep : Char) : List String := splitCharAux sep s.data []

/-- Join strings with single spaces (the `' '.join(...)` of the content
analyzer). -/
def joinSpace (xs : List String) : String :=
  String.mk (List.intercalate [' '] (xs.map String.data))

/-! ## Data model -/

/-- One HTML element as the document accessor exposes it: tag name,
attribute list (in attribute order), extracted text, and whether the
element is nested inside a `label` element (the `find_parent` query the
accessibility analyzer performs). -/
structure Elem where
  tag : String
  attrs : List (String × String)
  text : String := ""
  insideLabel : Bool := false
deriving DecidableEq

/-- A cookie as the fetcher reports it. -/
structure Cookie where
  secure : Bool
  httpOnly : Bool
  sameSite : Bool
deriving DecidableEq

/-- Certificate metadata from the TLS probe.  Times are in whole days on a
common axis with `Clock.nowDay`, so the Python day arithmetic on the
validity window is exact. -/
structure Cert where
  notBefore : Int
  notAfter : Int
  issuerOrg : String
  subject : List String
deriving DecidableEq

/-- Ambient time data (`datetime.now()` of the run). -/
structure Clock where
  nowDay : Int
  currentYear : Int
  timestamp : String
deriving DecidableEq

/-- Results of every regular-expression search the analyzers run against
the raw HTML body.  Each field corresponds to one named pattern (or fixed
pattern family) of the source; the regex engine is an external
collaborator, so its verdicts are inputs to the engine being verified. -/
structure HtmlObs where
  /-- any of the three mixed-content patterns (http resource URL, `src=` or
  `href=` with an `http://` value); shared by the SSL and security checks,
  which search the same three patterns. -/
  mixedContent : Bool := false
  /-- number of `@media (...)` block matches. -/
  mediaQueriesCount : Nat := 0
  /-- total matches of the four responsive-image patterns (srcset, sizes,
  picture, source-media). -/
  responsiveImgCount : Nat := 0
  /-- total matches of the three very-small font-size patterns. -/
  smallFontCount : Nat := 0
  jqueryMobile : Bool := false
  ionic : Bool := false
  framework7 : Bool := false
  onsen : Bool := false
  amp : Bool := false
  nextJs : Bool := false
  react : Bool := false
  vue3 : Bool := false
  nuxt : Bool := false
  angular : Bool := false
  svelte : Bool := false
  remix : Bool := false
  gatsby : Bool := false
  jquery : Bool := false
  bootstrap : Bool := false
  wordpress : Bool := false
  php : Bool := false
  aspnet : Bool := false
  typescript : Bool := false
  es6Plus : Bool := false
  webComponents : Bool := false
  moduleBundler : Bool := false
  lazyLoading : Bool := false
  codeSplitting : Bool := false
  serviceWorker : Bool := false
  pwa : Bool := false
  /-- the capture list of the `font-family` declaration regex. -/
  fontFamilyDecls : List String := []
  /-- the capture list of the color / background-color / border-color
  declaration regex. -/
  colorDecls : List String := []
  /-- how many of the eight modern-CSS feature pattern families matched. -/
  cssFeatureCount : Nat := 0
  /-- total matches of the margin/padding declaration patterns. -/
  whitespaceCount : Nat := 0
  /-- any of the six mobile-menu patterns. -/
  mobileMenu : Bool := false
  /-- any of the four structured-data patterns. -/
  structuredData : Bool := false
  /-- either sitemap-link pattern. -/
  sitemapLink : Bool := false
  /-- the light-text-on-light-background contrast pattern. -/
  lightOnLight : Bool := false
  /-- the dark-text-on-dark-background contrast pattern. -/
  darkOnDark : Bool := false
  /-- total matches of the seven date-format patterns over the visible
  text. -/
  datesFoundCount : Nat := 0
  /-- the year literals (`20xx`) mentioned in the visible text. -/
  yearsMentioned : List Int := []
  contactWord : Bool := false
  mailtoLink : Bool := false
  telLink : Bool := false
  emailPattern : Bool := false
  phonePattern : Bool := false
  /-- any of the five blog/news path patterns. -/
  blogPattern : Bool := false
deriving DecidableEq

/-- The fetcher's deliverable for one request: status, headers, cookies,
server-side elapsed time, the parsed document, and the body length
(`len(response.text)`), plus the regex observations over that body. -/
structure Response where
  statusCode : Nat
  headers : List (String × String) := []
  cookies : List Cookie := []
  elapsed : ℚ := 0
  doc : List Elem := []
  htmlLen : Nat := 0
  obs : HtmlObs := {}
deriving DecidableEq

/-- The analyzed URL: the raw string plus the path and query components
that `urlparse` (an external library) extracts from it. -/
structure Url where
  raw : String
  path : String := ""
  query : String := ""
deriving DecidableEq

/-- `url.startswith('https://')`, the scheme test the source performs. -/
def urlIsHttps (u : Url) : Bool := strStarts u.raw "https://"

/-- Everything one pipeline invocation hands to the nine analyzers: the
URL, the fetched response, the certificate-probe outcome (`none` when the
probe raised), and the ambient clock. -/
structure Ctx where
  url : Url
  response : Response
  probe : Option Cert := none
  clock : Clock := { nowDay := 0, currentYear := 2025, timestamp := "" }
deriving DecidableEq

/-- One analyzer's result: score, fixed per-category maximum, and the
positive / negative finding lists (interpolated numeric fragments of the
source's messages are elided; each message below keeps the source's fixed
wording). -/
structure CategoryResult where
  score : ℚ
  max_score : ℚ
  details : List String
  issues : List String
deriving DecidableEq

/-! ## Document accessor primitives (BeautifulSoup queries used) -/

/-- `soup.find_all(tag)` in document order. -/
def findAll (doc : List Elem) (t : String) : List Elem :=
  doc.filter (fun e => e.tag = t)

/-- `soup.find_all([t1, t2, ...])` in document order. -/
def findAllTags (doc : List Elem) (ts : List String) : List Elem :=
  doc.filter (fun e => ts.contains e.tag)

/-- `tag.get(a)`. -/
def getAttr (e : Elem) (a : String) : Option String :=
  (e.attrs.find? (fun p => p.1 = a)).map (fun p => p.2)

/-- `tag.get(a, d)`. -/
def getAttrD (e : Elem) (a d : String) : String := (getAttr e a).getD d

/-- Truthiness of `tag.get(a)`: attribute present with a non-empty value
(BeautifulSoup parses bare boolean attributes to the empty string, which
is falsy). -/
def attrTruthy (e : Elem) (a : String) : Bool :=
  match getAttr e a with
  | some v => v ≠ ""
  | none => false

/-- `tag.has_attr(a)` / filtering on `attr=True`. -/
def hasAttr (e : Elem) (a : String) : Bool := (getAttr e a).isSome

/-- Match of a `rel` filter value against the (multi-valued) `rel`
attribute: the value equals the whole attribute or one of its
space-separated tokens, the way BeautifulSoup matches multi-valued
attributes. -/
def relMatches (e : Elem) (v : String) : Bool :=
  match getAttr e "rel" with
  | some r => r = v || (splitChar r ' ').contains v
  | none => false

/-- `soup.find(t, attrs)` with one exact-valued attribute filter. -/
def findTagAttr (doc : List Elem) (t a v : String) : Option Elem :=
  (findAll doc t).find? (fun e => getAttr e a = some v)

/-- `soup.find('meta', name=n)`. -/
def findMetaNamed (doc : List Elem) (n : String) : Option Elem :=
  findTagAttr doc "meta" "name" n

/-- `soup.find('link', rel=v)` (multi-valued `rel` matching). -/
def findLinkRel (doc : List Elem) (v : String) : Option Elem :=
  (findAll doc "link").find? (fun e => relMatches e v)

/-- Class-attribute token list: `tag.get('class', [])` as BeautifulSoup's
multi-valued class list. -/
def classTokens (e : Elem) : List String :=
  match getAttr e "class" with
  | some v => (splitChar v ' ').filter (fun s => s ≠ "")
  | none => []

/-- `soup.find_all('link', rel=v)` (multi-valued `rel` matching). -/
def findAllLinkRel (doc : List Elem) (v : String) : List Elem :=
  (findAll doc "link").filter (fun e => relMatches e v)

/-- Case-insensitive lookup in the response headers (`requests` exposes a
case-insensitive header mapping). -/
def hGet (headers : List (String × String)) (k : String) : Option String :=
  (headers.find? (fun p => lcStr p.1 = lcStr k)).map (fun p => p.2)

/-- Truthiness of `response.headers.get(k)`. -/
def headerTruthy (headers : List (String × String)) (k : String) : Bool :=
  match hGet headers k with
  | some v => v ≠ ""
  | none => false

/-- `k in response.headers` (case-insensitive membership). -/
def headerPresent (headers : List (String × String)) (k : String) : Bool :=
  (hGet headers k).isSome

/-! ## Analyzer scoring blocks

Each analyzer method of the source is a sequence of blocks, every block
adding a score increment to `result['score']` and appending to
`result['details']` / `result['issues']`.  Each block below is one such
contiguous block of the source, returning its increment and its two
message lists; the analyzer concatenates them in execution order. -/

/-- One scoring block's contribution. -/
structure Acc where
  delta : ℚ := 0
  details : List String := []
  issues : List String := []
deriving DecidableEq

/-! ### check_ssl (source lines 224-320, max 5) -/

/-- Lines 249-253: +2 when the URL scheme is HTTPS. -/
def sslHttpsBlock (u : Url) : Acc :=
  if urlIsHttps u then { delta := 2, details := ["Website uses HTTPS"] }
  else { issues := ["Website does not use HTTPS"] }

/-- Lines 256-298: the certificate inspection inside the `try`.  A `none`
probe is the caught connect/handshake failure branch (lines 294-298): only
an issue is recorded.  With a certificate: +1 when now lies strictly inside
the validity window, +1 more when more than 90 days remain, the issuer
detail, and +1 when the subject fields contain `jurisdictionCountryName`
(Extended Validation). -/
def sslCertBlock (u : Url) (probe : Option Cert) (clock : Clock) : Acc :=
  match probe with
  | some cert =>
    let validity : Acc :=
      if cert.notBefore < clock.nowDay ∧ clock.nowDay < cert.notAfter then
        if cert.notAfter - clock.nowDay > 90 then
          { delta := 2,
            details := ["SSL certificate is valid until D",
                        "SSL certificate expires in N days (>90 days)"] }
        else
          { delta := 1, details := ["SSL certificate is valid until D"],
            issues := ["SSL certificate expires soon (N days)"] }
      else { issues := ["SSL certificate is not valid"] }
    let ev : Acc :=
      if "jurisdictionCountryName" ∈ cert.subject then
        { delta := 1, details := ["Using Extended Validation (EV) certificate"] }
      else {}
    { delta := validity.delta + ev.delta,
      details := validity.details ++ ["Certificate issued by: " ++ cert.issuerOrg]
                   ++ ev.details,
      issues := validity.issues ++ ev.issues }
  | none =>
    if urlIsHttps u then { issues := ["SSL certificate check failed: E"] }
    else { issues := ["No SSL certificate (using HTTP)"] }

/-- Lines 300-318: +1 when the page is HTTPS and none of the three
mixed-content patterns matched. -/
def sslMixedBlock (u : Url) (obs : HtmlObs) : Acc :=
  if urlIsHttps u then
    if obs.mixedContent then
      { issues := ["Mixed content detected (HTTP resources on HTTPS page)"] }
    else { delta := 1, details := ["No mixed content detected"] }
  else {}

/-- `check_ssl`: HTTPS scheme, certificate window / EV, mixed content. -/
def check_ssl (ctx : Ctx) : CategoryResult :=
  let b1 := sslHttpsBlock ctx.url
  let b2 := sslCertBlock ctx.url ctx.probe ctx.clock
  let b3 := sslMixedBlock ctx.url ctx.response.obs
  { score := b1.delta + b2.delta + b3.delta, max_score := 5,
    details := b1.details ++ b2.details ++ b3.details,
    issues := b1.issues ++ b2.issues ++ b3.issues }

/-! ### check_mobile (source lines 322-439, max 5) -/

/-- Lines 344-357: +1 for a viewport meta tag, +1 more when its content
holds both `width=device-width` and `initial-scale=1`. -/
def mobileViewportBlock (doc : List Elem) : Acc :=
  match findMetaNamed doc "viewport" with
  | some v =>
    let content := getAttrD v "content" ""
    if strContains content "width=device-width" && strContains content "initial-scale=1" then
      { delta := 2,
        details := ["Viewport meta tag: C",
                    "Viewport properly configured with device-width and initial-scale"] }
    else
      { delta := 1, details := ["Viewport meta tag: C"],
        issues := ["Viewport meta tag exists but may not be properly configured"] }
  | none => { issues := ["No viewport meta tag found (not mobile-friendly)"] }

/-- Lines 359-365: +1 when at least one `@media` block was found. -/
def mobileMediaBlock (obs : HtmlObs) : Acc :=
  if obs.mediaQueriesCount > 0 then
    { delta := 1, details := ["Found N media queries for responsive design"] }
  else { issues := ["No media queries found for responsive design"] }

/-- Lines 367-378: +0.5 flat when any of the four mobile-specific meta
tags is present. -/
def mobileMetaBlock (doc : List Elem) : Acc :=
  let tags := [findMetaNamed doc "apple-mobile-web-app-capable",
               findMetaNamed doc "apple-mobile-web-app-status-bar-style",
               findMetaNamed doc "format-detection",
               findMetaNamed doc "mobile-web-app-capable"]
  if (tags.filter Option.isSome).length > 0 then
    { delta := 0.5, details := ["Found N mobile-specific meta tags"] }
  else {}

/-- Lines 380-390: +0.5 flat when any of the three touch-icon link types
is present. -/
def mobileTouchIconBlock (doc : List Elem) : Acc :=
  let icons := [findLinkRel doc "apple-touch-icon",
                findLinkRel doc "apple-touch-icon-precomposed",
                (findAll doc "link").find? (fun e => relMatches e "icon" && hasAttr e "sizes")]
  if (icons.filter Option.isSome).length > 0 then
    { delta := 0.5, details := ["Found N touch icons for mobile devices"] }
  else {}

/-- Lines 392-405: +1 when any responsive-image technique occurs. -/
def mobileResponsiveImgBlock (obs : HtmlObs) : Acc :=
  if obs.responsiveImgCount > 0 then
    { delta := 1, details := ["Found N responsive image techniques"] }
  else { issues := ["No responsive image techniques detected"] }

/-- Lines 407-418: informational only, no score movement. -/
def mobileFontBlock (obs : HtmlObs) : Acc :=
  if obs.smallFontCount = 0 then
    { details := ["No extremely small font sizes detected"] }
  else { issues := ["Found N instances of very small font sizes"] }

/-- Lines 420-432: the detected mobile-framework names, in source order. -/
def mobileFrameworks (obs : HtmlObs) : List String :=
  (if obs.jqueryMobile then ["jQuery Mobile"] else []) ++
  (if obs.ionic then ["Ionic"] else []) ++
  (if obs.framework7 then ["Framework7"] else []) ++
  (if obs.onsen then ["Onsen UI"] else []) ++
  (if obs.amp then ["Google AMP"] else [])

/-- `check_mobile`: the framework bonus (+0.5 per framework) is added last
and only that addition is clamped to `max_score` (lines 434-437). -/
def check_mobile (ctx : Ctx) : CategoryResult :=
  let doc := ctx.response.doc
  let obs := ctx.response.obs
  let b1 := mobileViewportBlock doc
  let b2 := mobileMediaBlock obs
  let b3 := mobileMetaBlock doc
  let b4 := mobileTouchIconBlock doc
  let b5 := mobileResponsiveImgBlock obs
  let b6 := mobileFontBlock obs
  let base := b1.delta + b2.delta + b3.delta + b4.delta + b5.delta + b6.delta
  let fws := mobileFrameworks obs
  { score := if fws ≠ [] then min (base + (fws.length : ℚ) * 0.5) 5 else base,
    max_score := 5,
    details := b1.details ++ b2.details ++ b3.details ++ b4.details ++ b5.details
                 ++ b6.details ++ fws.map (fun f => "Using mobile framework: " ++ f),
    issues := b1.issues ++ b2.issues ++ b3.issues ++ b4.issues ++ b5.issues ++ b6.issues }

/-! ### check_page_speed (source lines 441-580, max 5) -/

/-- Lines 462-479: up to +2 from the measured response time
(`response.elapsed.total_seconds()`), in strict `<` tiers. -/
def psLoadBlock (elapsed : ℚ) : Acc :=
  let tier : Acc :=
    if elapsed < 1 then { delta := 2, details := ["Excellent load time (< 1 second)"] }
    else if elapsed < 2 then { delta := 1.5, details := ["Good load time (< 2 seconds)"] }
    else if elapsed < 3 then { delta := 1, details := ["Average load time (< 3 seconds)"] }
    else if elapsed < 5 then { delta := 0.5, details := ["Slow load time (< 5 seconds)"] }
    else { issues := ["Very slow load time (N seconds)"] }
  { tier with details := "Initial load time: N seconds" :: tier.details }

/-- Lines 481-493: up to +1 from the HTML size in KB
(`len(html) / 1024`). -/
def psSizeBlock (htmlLen : Nat) : Acc :=
  let sizeKb : ℚ := (htmlLen : ℚ) / 1024
  let tier : Acc :=
    if sizeKb < 50 then { delta := 1, details := ["Small HTML size (< 50 KB)"] }
    else if sizeKb < 100 then { delta := 0.5, details := ["Moderate HTML size (< 100 KB)"] }
    else { issues := ["Large HTML size (N KB)"] }
  { tier with details := "HTML size: N KB" :: tier.details }

/-- Lines 495-510: resource hints; +0.2 per hint capped at +1. -/
def psHintsBlock (doc : List Elem) : Acc :=
  let hints := [("preload", findAllLinkRel doc "preload"),
                ("prefetch", findAllLinkRel doc "prefetch"),
                ("preconnect", findAllLinkRel doc "preconnect"),
                ("dns-prefetch", findAllLinkRel doc "dns-prefetch")]
  let count := (hints.map (fun h => h.2.length)).sum
  { delta := if count > 0 then min ((count : ℚ) * 0.2) 1 else 0,
    details := (hints.filter (fun h => h.2 ≠ [])).map
      (fun h => "Using " ++ h.1 ++ " for N resources") }

/-- The `<script src=...>` elements (`find_all('script', src=True)`). -/
def jsFiles (doc : List Elem) : List Elem :=
  (findAll doc "script").filter (fun e => hasAttr e "src")

/-- The stylesheet links (`find_all('link', rel='stylesheet')`). -/
def cssFiles (doc : List Elem) : List Elem := findAllLinkRel doc "stylesheet"

/-- Lines 512-523: +0.5 when any `.min.js` script or `.min.css` stylesheet
is referenced. -/
def psMinifiedBlock (doc : List Elem) : Acc :=
  let minJs := ((jsFiles doc).filter (fun s => strContains (getAttrD s "src" "") ".min.js")).length
  let minCss := ((cssFiles doc).filter (fun l => strContains (getAttrD l "href" "") ".min.css")).length
  if minJs > 0 ∨ minCss > 0 then
    { delta := 0.5, details := ["Using minified resources: N JS files, N CSS files"] }
  else { issues := ["No minified JS or CSS resources detected"] }

/-- An image counts as lazy-loaded when `loading="lazy"` or its class list
holds `lazyload` (line 528). -/
def imgLazy (e : Elem) : Bool :=
  getAttr e "loading" = some "lazy" || (classTokens e).contains "lazyload"

/-- Lines 525-543: the image block.  With no `<img>` tags the whole block
is skipped: no percentages are formed and nothing is recorded.  Otherwise
+0.5 when at least half the images are lazy-loaded. -/
def psImagesBlock (doc : List Elem) : Acc :=
  let imgs := findAll doc "img"
  match imgs with
  | [] => {}
  | _ :: _ =>
    let withLazy := (imgs.filter imgLazy).length
    let lazyPct : ℚ := ((withLazy : ℚ) / (imgs.length : ℚ)) * 100
    let base := ["Images with alt text: N%", "Images with lazy loading: N%"]
    if lazyPct ≥ 50 then
      { delta := 0.5, details := base ++ ["Good use of lazy loading for images"] }
    else if withLazy > 0 then { details := base ++ ["Some images use lazy loading"] }
    else { details := base, issues := ["No lazy loading detected for images"] }

/-- Lines 545-560: +0.5 when at least two of the four caching headers are
set. -/
def psCacheBlock (headers : List (String × String)) : Acc :=
  let names := ["Cache-Control", "ETag", "Expires", "Last-Modified"]
  let count := (names.filter (fun n => headerTruthy headers n)).length
  if count ≥ 2 then { delta := 0.5, details := ["Using N browser caching headers"] }
  else if count > 0 then { details := ["Using N browser caching header"] }
  else { issues := ["No browser caching headers detected"] }

/-- Lines 562-568: +0.5 when a `Content-Encoding` header is present. -/
def psCompressionBlock (headers : List (String × String)) : Acc :=
  if headerTruthy headers "Content-Encoding" then
    { delta := 0.5, details := ["Using N compression"] }
  else { issues := ["No compression detected"] }

/-- A sourced script is render-blocking when it has neither `async` nor
`defer` (truthy values) and its `src` is truthy and not a data URL
(line 571). -/
def renderBlockingJs (e : Elem) : Bool :=
  !(attrTruthy e "async") && !(attrTruthy e "defer") && attrTruthy e "src"
    && !(strStarts (getAttrD e "src" "") "data:")

/-- A stylesheet is render-blocking when it has no `media` attribute (or a
falsy one) or `media="all"` (line 572). -/
def renderBlockingCss (e : Elem) : Bool :=
  !(attrTruthy e "media") || getAttr e "media" = some "all"

/-- Lines 570-578: +0.5 when no render-blocking script or stylesheet is
present. -/
def psRenderBlock (doc : List Elem) : Acc :=
  let rbJs := ((jsFiles doc).filter renderBlockingJs).length
  let rbCss := ((cssFiles doc).filter renderBlockingCss).length
  if rbJs = 0 ∧ rbCss = 0 then
    { delta := 0.5, details := ["No render-blocking resources detected"] }
  else { issues := ["Found render-blocking resources: N JS, N CSS"] }

/-- `check_page_speed`: the sum of the eight blocks, no final clamp. -/
def check_page_speed (ctx : Ctx) : CategoryResult :=
  let doc := ctx.response.doc
  let b1 := psLoadBlock ctx.response.elapsed
  let b2 := psSizeBlock ctx.response.htmlLen
  let b3 := psHintsBlock doc
  let b4 := psMinifiedBlock doc
  let b5 := psImagesBlock doc
  let b6 := psCacheBlock ctx.response.headers
  let b7 := psCompressionBlock ctx.response.headers
  let b8 := psRenderBlock doc
  { score := b1.delta + b2.delta + b3.delta + b4.delta + b5.delta + b6.delta
               + b7.delta + b8.delta,
    max_score := 5,
    details := b1.details ++ b2.details ++ b3.details ++ b4.details ++ b5.details
                 ++ b6.details ++ b7.details ++ b8.details,
    issues := b1.issues ++ b2.issues ++ b3.issues ++ b4.issues ++ b5.issues
                ++ b6.issues ++ b7.issues ++ b8.issues }

/-! ### analyze_tech_stack (source lines 582-672, max 10, floor -5) -/

/-- One rule table: for each entry, whether its pattern matched the raw
body, its score delta, and its display name, in the source's dictionary
order. -/
def TechRules := List (Bool × ℚ × String)

/-- Lines 604-613: the modern-framework table. -/
def modernFrameworkRules (obs : HtmlObs) : TechRules :=
  [(obs.nextJs, 5, "Next.js"), (obs.react, 4, "React"), (obs.vue3, 4, "Vue 3"),
   (obs.nuxt, 5, "Nuxt.js"), (obs.angular, 4, "Angular"), (obs.svelte, 4, "Svelte"),
   (obs.remix, 5, "Remix"), (obs.gatsby, 4, "Gatsby")]

/-- Lines 615-622: the legacy-framework table (negative deltas). -/
def legacyFrameworkRules (obs : HtmlObs) : TechRules :=
  [(obs.jquery, -3, "jQuery"), (obs.bootstrap, -1, "Bootstrap 3/4"),
   (obs.wordpress, -2, "WordPress"), (obs.php, -2, "PHP"),
   (obs.aspnet, -2, "ASP.NET WebForms")]

/-- Lines 624-630: the modern-feature table. -/
def modernFeatureRules (obs : HtmlObs) : TechRules :=
  [(obs.typescript, 2, "TypeScript"), (obs.es6Plus, 2, "ES6+ Features"),
   (obs.webComponents, 2, "Web Components"), (obs.moduleBundler, 1, "Modern Build Tools")]

/-- Lines 632-638: the optimization table. -/
def optimizationRules (obs : HtmlObs) : TechRules :=
  [(obs.lazyLoading, 1, "Lazy Loading"), (obs.codeSplitting, 1, "Code Splitting"),
   (obs.serviceWorker, 1, "Service Worker"), (obs.pwa, 1, "PWA Support")]

/-- Sum of the deltas of the matching rules of one table. -/
def ruleSum (rs : TechRules) : ℚ := ((rs.filter (fun r => r.1)).map (fun r => r.2.1)).sum

/-- The `Detected ...` details of the matching rules of one table. -/
def ruleDetails (rs : TechRules) : List String :=
  (rs.filter (fun r => r.1)).map (fun r => "Detected " ++ r.2.2)

/-- Whether any rule of a table matched. -/
def ruleAny (rs : TechRules) : Bool := rs.any (fun r => r.1)

/-- `analyze_tech_stack`: all matching rules of the four tables fire
independently (lines 644-652); one extra -2 when both a modern and a
legacy framework matched (lines 655-657); the sum is clamped to
`[-5, 10]` (line 660); tier issues follow from the clamped score
(lines 663-670). -/
def analyze_tech_stack (ctx : Ctx) : CategoryResult :=
  let obs := ctx.response.obs
  let modern := modernFrameworkRules obs
  let legacy := legacyFrameworkRules obs
  let features := modernFeatureRules obs
  let opts := optimizationRules obs
  let modernDetected := ruleAny modern
  let legacyDetected := ruleAny legacy
  let mixPenalty : ℚ := if modernDetected && legacyDetected then -2 else 0
  let raw := ruleSum modern + ruleSum legacy + ruleSum features + ruleSum opts + mixPenalty
  let score := max (-5) (min raw 10)
  { score := score, max_score := 10,
    details := ruleDetails modern ++ ruleDetails legacy ++ ruleDetails features
                 ++ ruleDetails opts,
    issues :=
      (if modernDetected && legacyDetected then
        ["Mixing modern and legacy technologies (not recommended)"] else []) ++
      (if score < 0 then
        ["Website uses severely outdated technologies",
         "Urgent need for complete modernization"]
       else if score < 3 then
        ["Consider upgrading to modern frameworks like React, Vue, or Angular",
         "Implement modern JavaScript features and build tools"]
       else if score < 7 then
        ["Consider adding more modern optimizations like code splitting and PWA support"]
       else []) }

/-! ### check_ui_quality (source lines 674-829, max 5) -/

/-- Lines 695-701: +0.5 for a favicon (`rel` matching `icon` or
`shortcut icon`). -/
def uiFaviconBlock (doc : List Elem) : Acc :=
  match (findAll doc "link").find?
      (fun e => relMatches e "icon" || relMatches e "shortcut icon") with
  | some _ => { delta := 0.5, details := ["Website has a favicon"] }
  | none => { issues := ["No favicon detected"] }

/-- The counts of `h1`..`h6` tags (lines 704-706). -/
def headingCounts (doc : List Elem) : List Nat :=
  [(findAll doc "h1").length, (findAll doc "h2").length, (findAll doc "h3").length,
   (findAll doc "h4").length, (findAll doc "h5").length, (findAll doc "h6").length]

/-- Lines 717-721: a hierarchy is proper when no adjacent pair has a zero
count followed by a nonzero count. -/
def properHierarchy (hs : List Nat) : Bool :=
  (hs.zip hs.tail).all (fun p => !(p.1 = 0 && p.2 > 0))

/-- Lines 708-714: +0.5 when at least one H1 exists. -/
def uiH1Block (doc : List Elem) : Acc :=
  if (headingCounts doc).headD 0 > 0 then
    { delta := 0.5, details := ["Website has N H1 heading(s)"] }
  else { issues := ["No H1 heading found"] }

/-- Lines 716-727: +0.5 for a proper heading hierarchy. -/
def uiHierarchyBlock (doc : List Elem) : Acc :=
  if properHierarchy (headingCounts doc) then
    { delta := 0.5, details := ["Proper heading hierarchy"] }
  else { issues := ["Improper heading hierarchy (e.g., H3 without H2)"] }

/-- The first comma-separated token of a `font-family` value, stripped and
lower-cased (lines 732-736). -/
def firstFont (f : String) : String :=
  lcStr (strTrim (String.mk (f.data.takeWhile (fun c => c ≠ ','))))

/-- Lines 729-742: +0.5 when at most 3 distinct primary font families are
declared. -/
def uiFontBlock (obs : HtmlObs) : Acc :=
  let uniqueFonts := (((obs.fontFamilyDecls.map firstFont).filter (fun s => s ≠ "")).dedup).length
  if uniqueFonts ≤ 3 then
    { delta := 0.5, details := ["Consistent font usage (N primary fonts)"] }
  else { issues := ["Too many different fonts (N primary fonts)"] }

/-- Lines 744-756: +0.5 when at most 10 distinct non-inherit,
non-transparent color values are declared. -/
def uiColorBlock (obs : HtmlObs) : Acc :=
  let vals := (obs.colorDecls.map (fun c => lcStr (strTrim c))).filter
    (fun c => c ≠ "" && c ≠ "inherit" && c ≠ "transparent")
  if vals.dedup.length ≤ 10 then
    { delta := 0.5, details := ["Consistent color palette (N colors)"] }
  else { issues := ["Inconsistent color usage (N different colors)"] }

/-- Lines 758-770: skipped entirely when there are no images; otherwise
+0.5 when at least half the images carry `srcset` or `sizes`. -/
def uiResponsiveImgBlock (doc : List Elem) : Acc :=
  let imgs := findAll doc "img"
  match imgs with
  | [] => {}
  | _ :: _ =>
    let responsive := (imgs.filter (fun i => attrTruthy i "srcset" || attrTruthy i "sizes")).length
    let pct : ℚ := ((responsive : ℚ) / (imgs.length : ℚ)) * 100
    if pct ≥ 50 then { delta := 0.5, details := ["Good use of responsive images (N%)"] }
    else if responsive > 0 then { details := ["Some responsive images (N%)"] }
    else { issues := ["No responsive images detected"] }

/-- Lines 772-798: +1 when at least 3 of the 8 modern-CSS feature families
matched, else +0.5 when any did. -/
def uiCssBlock (obs : HtmlObs) : Acc :=
  if obs.cssFeatureCount ≥ 3 then
    { delta := 1, details := ["Using modern CSS features: F"] }
  else if obs.cssFeatureCount > 0 then
    { delta := 0.5, details := ["Using some modern CSS features: F"] }
  else { issues := ["No modern CSS features detected"] }

/-- Lines 800-814: +0.5 when more than 20 margin/padding declarations
occur. -/
def uiWhitespaceBlock (obs : HtmlObs) : Acc :=
  if obs.whitespaceCount > 20 then
    { delta := 0.5, details := ["Good use of whitespace in layout"] }
  else if obs.whitespaceCount > 10 then { details := ["Some use of whitespace in layout"] }
  else { issues := ["Limited use of whitespace in layout"] }

/-- Lines 816-827: +0.5 when a mobile-menu pattern matched. -/
def uiMobileMenuBlock (obs : HtmlObs) : Acc :=
  if obs.mobileMenu then { delta := 0.5, details := ["Mobile menu detected"] }
  else { issues := ["No mobile menu detected"] }

/-- `check_ui_quality`: the sum of the nine blocks, no final clamp. -/
def check_ui_quality (ctx : Ctx) : CategoryResult :=
  let doc := ctx.response.doc
  let obs := ctx.response.obs
  let b1 := uiFaviconBlock doc
  let b2 := uiH1Block doc
  let b3 := uiHierarchyBlock doc
  let b4 := uiFontBlock obs
  let b5 := uiColorBlock obs
  let b6 := uiResponsiveImgBlock doc
  let b7 := uiCssBlock obs
  let b8 := uiWhitespaceBlock obs
  let b9 := uiMobileMenuBlock obs
  { score := b1.delta + b2.delta + b3.delta + b4.delta + b5.delta + b6.delta
               + b7.delta + b8.delta + b9.delta,
    max_score := 5,
    details := b1.details ++ b2.details ++ b3.details ++ b4.details ++ b5.details
                 ++ b6.details ++ b7.details ++ b8.details ++ b9.details,
    issues := b1.issues ++ b2.issues ++ b3.issues ++ b4.issues ++ b5.issues
                ++ b6.issues ++ b7.issues ++ b8.issues ++ b9.issues }

/-! ### check_seo (source lines 831-1006, max 5) -/

/-- `soup.find('title')`: the first title element. -/
def findTitle (doc : List Elem) : Option Elem := (findAll doc "title").head?

/-- Lines 853-868: +0.5 for a non-empty title, +0.5 more when its stripped
length lies in `[10, 60]`. -/
def seoTitleBlock (doc : List Elem) : Acc :=
  match findTitle doc with
  | some t =>
    let titleText := strTrim t.text
    if titleText ≠ "" then
      let lenAcc : Acc :=
        if 10 ≤ titleText.length ∧ titleText.length ≤ 60 then
          { delta := 0.5, details := ["Title length is optimal (N characters)"] }
        else if titleText.length < 10 then { issues := ["Title is too short (N characters)"] }
        else { issues := ["Title is too long (N characters)"] }
      { delta := 0.5 + lenAcc.delta, details := "Title tag: T" :: lenAcc.details,
        issues := lenAcc.issues }
    else { issues := ["Missing title tag"] }
  | none => { issues := ["Missing title tag"] }

/-- Lines 870-886: +0.5 for a non-empty meta description, +0.5 more when
its stripped length lies in `[50, 160]`. -/
def seoDescBlock (doc : List Elem) : Acc :=
  match findMetaNamed doc "description" with
  | some m =>
    let content := strTrim (getAttrD m "content" "")
    if content ≠ "" then
      let lenAcc : Acc :=
        if 50 ≤ content.length ∧ content.length ≤ 160 then
          { delta := 0.5, details := ["Meta description length is optimal (N characters)"] }
        else if content.length < 50 then
          { issues := ["Meta description is too short (N characters)"] }
        else { issues := ["Meta description is too long (N characters)"] }
      { delta := 0.5 + lenAcc.delta, details := "Meta description: D" :: lenAcc.details,
        issues := lenAcc.issues }
    else { issues := ["Missing meta description"] }
  | none => { issues := ["Missing meta description"] }

/-- Lines 888-894: +0.5 for a canonical link with a truthy `href`. -/
def seoCanonicalBlock (doc : List Elem) : Acc :=
  match findLinkRel doc "canonical" with
  | some c =>
    if attrTruthy c "href" then { delta := 0.5, details := ["Canonical URL: U"] }
    else { issues := ["No canonical URL specified"] }
  | none => { issues := ["No canonical URL specified"] }

/-- Lines 896-915: +0.5 for exactly one H1, +0.25 more when the first H1
shares at least 2 word tokens with the title. -/
def seoH1Block (doc : List Elem) : Acc :=
  let h1s := findAll doc "h1"
  match h1s with
  | [] => { issues := ["No H1 tag found"] }
  | h1 :: rest =>
    let single : Acc :=
      if rest.length = 0 then { delta := 0.5, details := ["Single H1 tag (recommended)"] }
      else { issues := ["Multiple H1 tags found (N)"] }
    let keywords : Acc :=
      match findTitle doc with
      | some t =>
        if strTrim h1.text ≠ "" then
          if commonCount (words (lcStr t.text)) (words (lcStr h1.text)) ≥ 2 then
            { delta := 0.25, details := ["H1 contains keywords from title"] }
          else {}
        else {}
      | none => {}
    { delta := single.delta + keywords.delta,
      details := single.details ++ keywords.details, issues := single.issues }

/-- Lines 917-932: skipped entirely with no images; otherwise +0.5 when at
least 80% of the images have (truthy) alt text, else +0.25 at 50%. -/
def seoAltBlock (doc : List Elem) : Acc :=
  let imgs := findAll doc "img"
  match imgs with
  | [] => {}
  | _ :: _ =>
    let withAlt := (imgs.filter (fun i => attrTruthy i "alt")).length
    let pct : ℚ := ((withAlt : ℚ) / (imgs.length : ℚ)) * 100
    let base := ["Images with alt text: N%"]
    if pct ≥ 80 then { delta := 0.5, details := base ++ ["Good use of alt text for images"] }
    else if pct ≥ 50 then
      { delta := 0.25, details := base ++ ["Moderate use of alt text for images"] }
    else { details := base, issues := ["Poor use of alt text for images"] }

/-- Lines 934-947: +0.5 when any structured-data pattern matched. -/
def seoStructuredBlock (obs : HtmlObs) : Acc :=
  if obs.structuredData then
    { delta := 0.5, details := ["Structured data (Schema.org) detected"] }
  else { issues := ["No structured data detected"] }

/-- Lines 949-955: +0.25 when Open Graph meta tags exist (`property`
beginning with `og:`). -/
def seoOgBlock (doc : List Elem) : Acc :=
  let ogs := (findAll doc "meta").filter (fun e =>
    match getAttr e "property" with
    | some p => strStarts p "og:"
    | none => false)
  if ogs ≠ [] then { delta := 0.25, details := ["Open Graph tags: N"] }
  else { issues := ["No Open Graph tags found"] }

/-- Lines 957-963: +0.25 when Twitter Card meta tags exist (`name`
beginning with `twitter:`). -/
def seoTwitterBlock (doc : List Elem) : Acc :=
  let tws := (findAll doc "meta").filter (fun e =>
    match getAttr e "name" with
    | some n => strStarts n "twitter:"
    | none => false)
  if tws ≠ [] then { delta := 0.25, details := ["Twitter Card tags: N"] }
  else { issues := ["No Twitter Card tags found"] }

/-- Lines 965-972: +0.25 when the URL carries no query string. -/
def seoCleanUrlBlock (u : Url) : Acc :=
  if u.query = "" then
    { delta := 0.25, details := ["Clean URL structure (no query parameters)"] }
  else {}

/-- Lines 974-982: +0.25 when the URL path shares at least one word token
with the title. -/
def seoUrlKeywordBlock (doc : List Elem) (u : Url) : Acc :=
  match findTitle doc with
  | some t =>
    if commonCount (words (lcStr t.text)) (words (lcStr u.path)) ≥ 1 then
      { delta := 0.25, details := ["URL contains keywords from title"] }
    else {}
  | none => {}

/-- Lines 984-993: the robots meta tag is inspected for issues only. -/
def seoRobotsBlock (doc : List Elem) : Acc :=
  match findMetaNamed doc "robots" with
  | some r =>
    let content := lcStr (getAttrD r "content" "")
    { details := ["Robots meta tag: C"],
      issues := if strContains content "noindex" || strContains content "nofollow" then
          ["Page is set to noindex or nofollow"] else [] }
  | none => { details := ["No robots meta tag (defaults to index,follow)"] }

/-- Lines 995-1004: +0.25 when a sitemap link pattern matched. -/
def seoSitemapBlock (obs : HtmlObs) : Acc :=
  if obs.sitemapLink then { delta := 0.25, details := ["Sitemap link found in HTML"] }
  else {}

/-- `check_seo`: the sum of the twelve blocks, no final clamp. -/
def check_seo (ctx : Ctx) : CategoryResult :=
  let doc := ctx.response.doc
  let b1 := seoTitleBlock doc
  let b2 := seoDescBlock doc
  let b3 := seoCanonicalBlock doc
  let b4 := seoH1Block doc
  let b5 := seoAltBlock doc
  let b6 := seoStructuredBlock ctx.response.obs
  let b7 := seoOgBlock doc
  let b8 := seoTwitterBlock doc
  let b9 := seoCleanUrlBlock ctx.url
  let b10 := seoUrlKeywordBlock doc ctx.url
  let b11 := seoRobotsBlock doc
  let b12 := seoSitemapBlock ctx.response.obs
  { score := b1.delta + b2.delta + b3.delta + b4.delta + b5.delta + b6.delta
               + b7.delta + b8.delta + b9.delta + b10.delta + b11.delta + b12.delta,
    max_score := 5,
    details := b1.details ++ b2.details ++ b3.details ++ b4.details ++ b5.details
                 ++ b6.details ++ b7.details ++ b8.details ++ b9.details ++ b10.details
                 ++ b11.details ++ b12.details,
    issues := b1.issues ++ b2.issues ++ b3.issues ++ b4.issues ++ b5.issues
                ++ b6.issues ++ b7.issues ++ b8.issues ++ b9.issues ++ b10.issues
                ++ b11.issues ++ b12.issues }

/-! ### check_security_headers (source lines 1008-1136, max 5) -/

/-- The eight inspected security headers (lines 1037-1046), in source
order. -/
def securityHeaderNames : List String :=
  ["Strict-Transport-Security", "Content-Security-Policy", "X-Content-Type-Options",
   "X-Frame-Options", "X-XSS-Protection", "Referrer-Policy", "Feature-Policy",
   "Permissions-Policy"]

/-- Lines 1030-1034: +1 for HTTPS. -/
def secHttpsBlock (u : Url) : Acc :=
  if urlIsHttps u then { delta := 1, details := ["Website uses HTTPS"] }
  else { issues := ["Website does not use HTTPS (major security issue)"] }

/-- Lines 1048-1065: the found headers (membership test on the
case-insensitive header mapping) and the tiered bonus on their count. -/
def secHeadersBlock (headers : List (String × String)) : Acc :=
  let found := securityHeaderNames.filter (fun n => headerPresent headers n)
  let tier : Acc :=
    if found.length ≥ 5 then
      { delta := 2, details := ["Excellent security headers implementation"] }
    else if found.length ≥ 3 then
      { delta := 1.5, details := ["Good security headers implementation"] }
    else if found.length ≥ 1 then
      { delta := 1, details := ["Basic security headers implementation"] }
    else { issues := ["No security headers implemented"] }
  { delta := tier.delta, details := found.map (fun h => h ++ ": V") ++ tier.details,
    issues := tier.issues }

/-- Lines 1067-1071: an issue naming the gaps among the three most
important headers; no score movement. -/
def secMissingBlock (headers : List (String × String)) : Acc :=
  let important := ["Strict-Transport-Security", "Content-Security-Policy",
                    "X-Content-Type-Options"]
  let missing := important.filter (fun h =>
    !((securityHeaderNames.filter (fun n => headerPresent headers n)).contains h))
  if missing ≠ [] then { issues := ["Missing important security headers: H"] }
  else {}

/-- Lines 1073-1099: cookie security.  With no cookies only a detail is
recorded; otherwise +1 when all cookies are Secure and HttpOnly, +0.5 when
at least half are each. -/
def secCookieBlock (cookies : List Cookie) : Acc :=
  match cookies with
  | [] => { details := ["No cookies detected"] }
  | _ :: _ =>
    let n : ℚ := (cookies.length : ℚ)
    let securePct := ((cookies.filter (fun c => c.secure)).length : ℚ) / n * 100
    let httpOnlyPct := ((cookies.filter (fun c => c.httpOnly)).length : ℚ) / n * 100
    let sameSiteCount := (cookies.filter (fun c => c.sameSite)).length
    let flags : Acc :=
      if securePct = 100 ∧ httpOnlyPct = 100 then
        { delta := 1, details := ["All cookies use Secure and HttpOnly flags"] }
      else if securePct ≥ 50 ∧ httpOnlyPct ≥ 50 then
        { delta := 0.5, details := ["Some cookies use security flags (Secure: N%, HttpOnly: N%)"] }
      else { issues := ["Poor cookie security (Secure: N%, HttpOnly: N%)"] }
    { delta := flags.delta,
      details := "Total cookies: N" :: flags.details ++
        (if sameSiteCount > 0 then ["Cookies with SameSite attribute: N"] else []),
      issues := flags.issues }

/-- Lines 1101-1114: subresource integrity over `script`/`link` tags;
skipped when no tag has a truthy `src` or `href`; +0.5 at 50% or more
coverage. -/
def secSriBlock (doc : List Elem) : Acc :=
  let tags := findAllTags doc ["script", "link"]
  let sriTags := (tags.filter (fun t => attrTruthy t "integrity")).length
  let external := (tags.filter (fun t => attrTruthy t "src" || attrTruthy t "href")).length
  if external > 0 then
    let pct : ℚ := ((sriTags : ℚ) / (external : ℚ)) * 100
    if pct ≥ 50 then
      { delta := 0.5, details := ["Good use of Subresource Integrity (SRI): N%"] }
    else if sriTags > 0 then
      { details := ["Some use of Subresource Integrity (SRI): N%"] }
    else { issues := ["No Subresource Integrity (SRI) detected"] }
  else {}

/-- Lines 1116-1134: the mixed-content check again (the same three
patterns as in `check_ssl`), worth +0.5 here. -/
def secMixedBlock (u : Url) (obs : HtmlObs) : Acc :=
  if urlIsHttps u then
    if obs.mixedContent then
      { issues := ["Mixed content detected (HTTP resources on HTTPS page)"] }
    else { delta := 0.5, details := ["No mixed content detected"] }
  else {}

/-- `check_security_headers`: the sum of the six blocks. -/
def check_security_headers (ctx : Ctx) : CategoryResult :=
  let b1 := secHttpsBlock ctx.url
  let b2 := secHeadersBlock ctx.response.headers
  let b3 := secMissingBlock ctx.response.headers
  let b4 := secCookieBlock ctx.response.cookies
  let b5 := secSriBlock ctx.response.doc
  let b6 := secMixedBlock ctx.url ctx.response.obs
  { score := b1.delta + b2.delta + b3.delta + b4.delta + b5.delta + b6.delta,
    max_score := 5,
    details := b1.details ++ b2.details ++ b3.details ++ b4.details ++ b5.details
                 ++ b6.details,
    issues := b1.issues ++ b2.issues ++ b3.issues ++ b4.issues ++ b5.issues ++ b6.issues }

/-! ### check_accessibility (source lines 1138-1311, max 5) -/

/-- Lines 1160-1165: +0.5 for a truthy `lang` attribute on `html`. -/
def accLangBlock (doc : List Elem) : Acc :=
  match (findAll doc "html").head? with
  | some h =>
    if attrTruthy h "lang" then
      { delta := 0.5, details := ["Language attribute specified: L"] }
    else { issues := ["No language attribute specified"] }
  | none => { issues := ["No language attribute specified"] }

/-- Lines 1167-1183: image alt attributes, by presence (`is not None`,
unlike the truthiness test of the SEO and page-speed analyzers); skipped
entirely when there are no images. -/
def accAltBlock (doc : List Elem) : Acc :=
  let imgs := findAll doc "img"
  match imgs with
  | [] => {}
  | _ :: _ =>
    let withAlt := (imgs.filter (fun i => hasAttr i "alt")).length
    let pct : ℚ := ((withAlt : ℚ) / (imgs.length : ℚ)) * 100
    if pct = 100 then { delta := 1, details := ["All images have alt attributes"] }
    else if pct ≥ 80 then
      { delta := 0.5, details := ["Most images have alt attributes (N%)"] }
    else if pct > 0 then { issues := ["Only N% of images have alt attributes"] }
    else { issues := ["No images have alt attributes"] }

/-- Lines 1189-1210: whether a form control is skipped from the labeling
census (hidden/submit/button/image types). -/
def controlSkipped (c : Elem) : Bool :=
  match getAttr c "type" with
  | some t => ["hidden", "submit", "button", "image"].contains t
  | none => false

/-- A non-skipped control counts as labeled via a `label[for]` match, an
`aria-label`/`aria-labelledby`, or a `label` ancestor. -/
def controlLabeled (doc : List Elem) (c : Elem) : Bool :=
  (match getAttr c "id" with
   | some i => (findTagAttr doc "label" "for" i).isSome
   | none => false) ||
  attrTruthy c "aria-label" || attrTruthy c "aria-labelledby" || c.insideLabel

/-- Lines 1185-1224: form-control labeling.  The denominator is all
`input`/`select`/`textarea` controls, skipped ones included.  +1 at 100%,
+0.5 at 80% or more, otherwise only issues. -/
def accLabelBlock (doc : List Elem) : Acc :=
  let controls := findAllTags doc ["input", "select", "textarea"]
  let labeled := (controls.filter (fun c => !(controlSkipped c) && controlLabeled doc c)).length
  match controls with
  | [] => {}
  | _ :: _ =>
    if labeled > 0 then
      let pct : ℚ := ((labeled : ℚ) / (controls.length : ℚ)) * 100
      if pct = 100 then { delta := 1, details := ["All form controls have labels"] }
      else if pct ≥ 80 then
        { delta := 0.5, details := ["Most form controls have labels (N%)"] }
      else { issues := ["Only N% of form controls have labels"] }
    else { issues := ["No form controls have labels"] }

/-- Lines 1226-1230: +0.5 flat when any element carries an `aria-*`
attribute. -/
def accAriaBlock (doc : List Elem) : Acc :=
  if (doc.filter (fun e => e.attrs.any (fun p => strStarts p.1 "aria-"))) ≠ [] then
    { delta := 0.5, details := ["Using ARIA attributes (N elements)"] }
  else {}

/-- Lines 1232-1238: +0.5 for a skip-link anchor whose `href` begins with
`#content`, `#main` or `#skip`. -/
def accSkipLinkBlock (doc : List Elem) : Acc :=
  let skips := (findAll doc "a").filter (fun a =>
    match getAttr a "href" with
    | some h => strStarts h "#content" || strStarts h "#main" || strStarts h "#skip"
    | none => false)
  if skips ≠ [] then
    { delta := 0.5, details := ["Skip links detected for keyboard navigation"] }
  else { issues := ["No skip links detected for keyboard navigation"] }

/-- Lines 1240-1257: the two regex contrast heuristics; +0.5 when neither
matched. -/
def accContrastBlock (obs : HtmlObs) : Acc :=
  let issues := (if obs.lightOnLight then ["Light text on light background detected"] else [])
    ++ (if obs.darkOnDark then ["Dark text on dark background detected"] else [])
  if issues = [] then
    { delta := 0.5, details := ["No obvious color contrast issues detected"] }
  else { issues := issues }

/-- Lines 1259-1276: tabindex audit, issues only.  (`int(...)` on the
attribute value is modelled totally; the inputs used here carry numeric
values.) -/
def accTabindexBlock (doc : List Elem) : Acc :=
  let withTab := doc.filter (fun e => hasAttr e "tabindex")
  match withTab with
  | [] => { details := ["No custom tabindex attributes (using default browser tab order)"] }
  | _ :: _ =>
    let tabVal (e : Elem) : Int := ((getAttr e "tabindex").getD "").toInt?.getD 0
    let truthyTab (e : Elem) : Bool := attrTruthy e "tabindex"
    let negative := (withTab.filter (fun e => truthyTab e && tabVal e < 0)).length
    let custom := (withTab.filter (fun e => truthyTab e && tabVal e > 0)).length
    { details := ["Elements with tabindex attribute: N"],
      issues := (if negative > 0 then ["N elements removed from keyboard tab order"] else [])
        ++ (if custom > 0 then ["N elements with custom tab order (tabindex > 0)"] else []) }

/-- Lines 1278-1288: +0.5 when at least 4 of the 7 semantic HTML5 landmark
elements occur. -/
def accSemanticBlock (doc : List Elem) : Acc :=
  let names := ["header", "nav", "main", "section", "article", "aside", "footer"]
  let count := (names.filter (fun n => findAll doc n ≠ [])).length
  if count ≥ 4 then
    { delta := 0.5, details := ["Good use of semantic HTML5 elements (N/7)"] }
  else if count > 0 then { details := ["Some use of semantic HTML5 elements (N/7)"] }
  else { issues := ["No semantic HTML5 elements detected"] }

/-- Lines 1290-1309: +0.5 when an H1 exists and the heading hierarchy is
proper (same rule as the UI check). -/
def accHeadingBlock (doc : List Elem) : Acc :=
  let hs := headingCounts doc
  if hs.headD 0 > 0 then
    if properHierarchy hs then
      { delta := 0.5, details := ["Proper heading hierarchy for screen readers"] }
    else { issues := ["Improper heading hierarchy (skipping levels)"] }
  else { issues := ["No H1 heading found"] }

/-- `check_accessibility`: the sum of the nine blocks. -/
def check_accessibility (ctx : Ctx) : CategoryResult :=
  let doc := ctx.response.doc
  let b1 := accLangBlock doc
  let b2 := accAltBlock doc
  let b3 := accLabelBlock doc
  let b4 := accAriaBlock doc
  let b5 := accSkipLinkBlock doc
  let b6 := accContrastBlock ctx.response.obs
  let b7 := accTabindexBlock doc
  let b8 := accSemanticBlock doc
  let b9 := accHeadingBlock doc
  { score := b1.delta + b2.delta + b3.delta + b4.delta + b5.delta + b6.delta
               + b7.delta + b8.delta + b9.delta,
    max_score := 5,
    details := b1.details ++ b2.details ++ b3.details ++ b4.details ++ b5.details
                 ++ b6.details ++ b7.details ++ b8.details ++ b9.details,
    issues := b1.issues ++ b2.issues ++ b3.issues ++ b4.issues ++ b5.issues
                ++ b6.issues ++ b7.issues ++ b8.issues ++ b9.issues }

/-! ### check_content_quality (source lines 1313-1457, max 5) -/

/-- Lines 1335-1340: the visible text is the join of the text of the
listed elements; the word count is the number of word-token matches. -/
def contentWordCount (doc : List Elem) : Nat :=
  let els := findAllTags doc ["p", "h1", "h2", "h3", "h4", "h5", "h6", "li", "span", "div"]
  (words (joinSpace (els.map (fun e => e.text)))).length

/-- Lines 1339-1352: up to +1 from the word count. -/
def contentWordBlock (doc : List Elem) : Acc :=
  let wc := contentWordCount doc
  let tier : Acc :=
    if wc ≥ 1000 then { delta := 1, details := ["Substantial content (1000+ words)"] }
    else if wc ≥ 500 then { delta := 0.5, details := ["Moderate content (500+ words)"] }
    else if wc ≥ 300 then { details := ["Minimal content (300+ words)"] }
    else { issues := ["Very little content (N words)"] }
  { tier with details := "Word count: N" :: tier.details }

/-- Lines 1354-1385: +0.5 when any date pattern matched, +0.5 more when a
mentioned year is within the last two years. -/
def contentDateBlock (obs : HtmlObs) (clock : Clock) : Acc :=
  if obs.datesFoundCount > 0 then
    let recent := obs.yearsMentioned.filter (fun y => y ≥ clock.currentYear - 2)
    if recent ≠ [] then
      { delta := 1, details := ["Content contains N date references",
                                "Content mentions recent years: Y"] }
    else
      { delta := 0.5, details := ["Content contains N date references"],
        issues := ["No recent years mentioned in content"] }
  else { issues := ["No date indicators found (content freshness unknown)"] }

/-- Lines 1388-1409: +0.5 flat when any anchor links to one of the seven
social domains. -/
def contentSocialBlock (doc : List Elem) : Acc :=
  let pats : List (String × String) :=
    [("facebook.com", "Facebook"), ("twitter.com", "Twitter"),
               ("linkedin.com", "LinkedIn"), ("instagram.com", "Instagram"),
               ("youtube.com", "YouTube"), ("pinterest.com", "Pinterest"),
               ("tiktok.com", "TikTok")]
  let found : List String := (pats.filter (fun p => (findAll doc "a").any (fun a =>
    match getAttr a "href" with
    | some h => strContains h p.1
    | none => false))).map (fun p => p.2)
  if found ≠ [] then { delta := 0.5, details := ["Social media links: S"] }
  else { issues := ["No social media links found"] }

/-- Lines 1411-1429: +0.5 flat when any of the five contact patterns
matched the raw body. -/
def contentContactBlock (obs : HtmlObs) : Acc :=
  if obs.contactWord || obs.mailtoLink || obs.telLink || obs.emailPattern
      || obs.phonePattern then
    { delta := 0.5, details := ["Contact information: C"] }
  else { issues := ["No contact information found"] }

/-- Lines 1431-1441: +0.5 for video/iframe elements, +0.25 for audio
elements. -/
def contentMediaBlock (doc : List Elem) : Acc :=
  let videoAcc : Acc :=
    if findAllTags doc ["video", "iframe"] ≠ [] then
      { delta := 0.5, details := ["Video content: N elements"] }
    else {}
  let audioAcc : Acc :=
    if findAll doc "audio" ≠ [] then
      { delta := 0.25, details := ["Audio content: N elements"] }
    else {}
  { delta := videoAcc.delta + audioAcc.delta, details := videoAcc.details ++ audioAcc.details }

/-- Lines 1443-1447: +0.5 for interactive elements.  The source's tag list
contains the literal name `input[type=text]`, which never matches a tag,
so plain `input` elements do not count. -/
def contentInteractiveBlock (doc : List Elem) : Acc :=
  if findAllTags doc ["form", "button", "select", "input[type=text]", "textarea"] ≠ [] then
    { delta := 0.5, details := ["Interactive elements: N"] }
  else {}

/-- Lines 1449-1455: +0.25 when a blog/news path pattern matched. -/
def contentBlogBlock (obs : HtmlObs) : Acc :=
  if obs.blogPattern then { delta := 0.25, details := ["Blog or news section detected"] }
  else {}

/-- `check_content_quality`: the sum of the seven blocks. -/
def check_content_quality (ctx : Ctx) : CategoryResult :=
  let doc := ctx.response.doc
  let obs := ctx.response.obs
  let b1 := contentWordBlock doc
  let b2 := contentDateBlock obs ctx.clock
  let b3 := contentSocialBlock doc
  let b4 := contentContactBlock obs
  let b5 := contentMediaBlock doc
  let b6 := contentInteractiveBlock doc
  let b7 := contentBlogBlock obs
  { score := b1.delta + b2.delta + b3.delta + b4.delta + b5.delta + b6.delta + b7.delta,
    max_score := 5,
    details := b1.details ++ b2.details ++ b3.details ++ b4.details ++ b5.details
                 ++ b6.details ++ b7.details,
    issues := b1.issues ++ b2.issues ++ b3.issues ++ b4.issues ++ b5.issues
                ++ b6.issues ++ b7.issues }

/-! ## Fetch retry, aggregation, classification, pipeline
(source lines 73-84, 89-116, 118-213) -/

/-- The category weight table of `WebsiteGraderV4.__init__` (source lines
74-84), in insertion order. -/
def category_weights : List (String × ℚ) :=
  [("ssl", 10), ("mobile", 15), ("page_speed", 15), ("tech_stack", 25),
   ("ui_quality", 10), ("seo", 5), ("security", 10), ("accessibility", 5),
   ("content", 5)]

/-- `self.category_weights.get(category, 1.0)` (source line 174). -/
def weightOf (k : String) : ℚ :=
  ((category_weights.find? (fun p => p.1 = k)).map (fun p => p.2)).getD 1

/-- `_get_with_retry` (source lines 89-116): attempt `i` runs; a transport
exception advances to attempt `i+1` while retries remain, and the last
exception is re-raised once `max_retries` extra attempts are exhausted.
`attempts` is the environment's verdict for each attempt, an input (the
HTTP layer is an external collaborator). -/
def getWithRetryAux (attempts : Nat → Except String Response) :
    Nat → Nat → Except String Response
  | i, 0 => attempts i
  | i, n + 1 =>
    match attempts i with
    | .ok r => .ok r
    | .error _ => getWithRetryAux attempts (i + 1) n

/-- `_get_with_retry` with the configured `max_retries` (default 2):
`max_retries + 1` attempts starting at attempt 0. -/
def get_with_retry (attempts : Nat → Except String Response) (maxRetries : Nat) :
    Except String Response :=
  getWithRetryAux attempts 0 maxRetries

/-- The per-invocation environment: the URL, the per-attempt fetch
verdicts, the retry budget, the wall-clock load time measured around the
fetch, the certificate-probe outcome and the clock. -/
structure Input where
  url : Url
  attempts : Nat → Except String Response
  maxRetries : Nat := 2
  loadTime : ℚ := 0
  probe : Option Cert := none
  clock : Clock := { nowDay := 0, currentYear := 2025, timestamp := "" }

/-- The analyzer context for a fetched response. -/
def Input.ctx (inp : Input) (response : Response) : Ctx :=
  { url := inp.url, response := response, probe := inp.probe, clock := inp.clock }

/-- Source lines 160-168: the nine categories in insertion order. -/
def runCategories (ctx : Ctx) : List (String × CategoryResult) :=
  [("ssl", check_ssl ctx), ("mobile", check_mobile ctx),
   ("page_speed", check_page_speed ctx), ("tech_stack", analyze_tech_stack ctx),
   ("ui_quality", check_ui_quality ctx), ("seo", check_seo ctx),
   ("security", check_security_headers ctx), ("accessibility", check_accessibility ctx),
   ("content", check_content_quality ctx)]

/-- Source lines 171-177: the weighted total, folded over the category
mapping in insertion order; each category contributes
`((score / max_score) * 100 * weight) / 100`. -/
def totalScoreRaw (cats : List (String × CategoryResult)) : ℚ :=
  cats.foldl (fun acc p => acc + ((p.2.score / p.2.max_score) * 100 * weightOf p.1) / 100) 0

/-- Python `round(x, 1)` on the exact rational value. -/
def round1 (x : ℚ) : ℚ := ((round (x * 10) : ℤ) : ℚ) / 10

/-- Source lines 184-198: the classification ladder, applied to the
weighted total before rounding. -/
def classify (t : ℚ) : String × String :=
  if 80 ≤ t then ("Excellent", "Low-Priority Lead")
  else if 65 ≤ t then ("Good", "Maintenance Lead")
  else if 50 ≤ t then ("Average", "Potential Lead")
  else if 35 ≤ t then ("Outdated", "Potential Lead")
  else ("Poor", "High-Priority Lead")

/-- The terminal artifact of a successful run (the `self.results[url]`
record, source lines 148-201): `total_score` is the rounded total,
`percentage` the unrounded one (line 181). -/
structure AnalysisResult where
  url : String
  load_time : ℚ
  status_code : Nat
  categories : List (String × CategoryResult)
  total_score : ℚ
  max_score : ℚ
  percentage : ℚ
  timestamp : String
  classification : String
  lead_potential : String
deriving DecidableEq

/-- Build the successful-run record from a fetched, non-403 response. -/
def buildResult (inp : Input) (response : Response) : AnalysisResult :=
  let cats := runCategories (inp.ctx response)
  let total := totalScoreRaw cats
  let c := classify total
  { url := inp.url.raw, load_time := inp.loadTime, status_code := response.statusCode,
    categories := cats, total_score := round1 total, max_score := 100,
    percentage := total, timestamp := inp.clock.timestamp,
    classification := c.1, lead_potential := c.2 }

/-- The three observable outcomes of `analyze_website`: the `None`
sentinel for HTTP 403 (line 142), the error record `{url, error,
timestamp}` built by the catch-all handler (lines 205-213), and the full
result record. -/
inductive AnalyzeOutcome where
  | blocked : AnalyzeOutcome
  | errorRecord (url : String) (error : String) (timestamp : String) : AnalyzeOutcome
  | success (r : AnalysisResult) : AnalyzeOutcome
deriving DecidableEq

/-- `analyze_website` (source lines 118-213): fetch with retry — an
exhausted retry raises and is caught by the catch-all, producing the error
record; a 403 status returns the blocked sentinel; otherwise the nine
analyzers run and the aggregate record is built. -/
def analyze_website (inp : Input) : AnalyzeOutcome :=
  match get_with_retry inp.attempts inp.maxRetries with
  | .error e => .errorRecord inp.url.raw e inp.clock.timestamp
  | .ok response =>
    if response.statusCode = 403 then .blocked
    else .success (buildResult inp response)

/-! ## Score bounds

Each block's increment is bounded by inspection of its branches; an
analyzer's score is bounded by the sum of its block bounds.  The certified
maxima of `check_ssl` (6), `check_page_speed` (6.5) and `check_seo` (5.5)
exceed the respective `max_score` of 5: those analyzers have no final
clamp. -/

theorem sslHttpsBlock_bounds (u : Url) :
    0 ≤ (sslHttpsBlock u).delta ∧ (sslHttpsBlock u).delta ≤ 2 := by
  unfold sslHttpsBlock
  try dsimp only
  repeat' split
  all_goals norm_num

theorem sslCertBlock_bounds (u : Url) (p : Option Cert) (c : Clock) :
    0 ≤ (sslCertBlock u p c).delta ∧ (sslCertBlock u p c).delta ≤ 3 := by
  unfold sslCertBlock
  rcases p with _ | cert
  · split_ifs <;> simp
  · simp only
    split_ifs <;> norm_num

theorem sslMixedBlock_bounds (u : Url) (o : HtmlObs) :
    0 ≤ (sslMixedBlock u o).delta ∧ (sslMixedBlock u o).delta ≤ 1 := by
  unfold sslMixedBlock
  try dsimp only
  repeat' split
  all_goals norm_num

/-- The SSL score is the sum of the three block increments; with all five
signals (HTTPS, valid window, more than 90 days, EV subject field, no
mixed content) it reaches 6, above its `max_score` of 5. -/
theorem check_ssl_bounds (ctx : Ctx) :
    0 ≤ (check_ssl ctx).score ∧ (check_ssl ctx).score ≤ 6 := by
  have h1 := sslHttpsBlock_bounds ctx.url
  have h2 := sslCertBlock_bounds ctx.url ctx.probe ctx.clock
  have h3 := sslMixedBlock_bounds ctx.url ctx.response.obs
  simp only [check_ssl]
  constructor <;> linarith [h1.1, h1.2, h2.1, h2.2, h3.1, h3.2]

theorem mobileViewportBlock_bounds (doc : List Elem) :
    0 ≤ (mobileViewportBlock doc).delta ∧ (mobileViewportBlock doc).delta ≤ 2 := by
  unfold mobileViewportBlock
  try dsimp only
  repeat' split
  all_goals norm_num

theorem mobileMediaBlock_bounds (o : HtmlObs) :
    0 ≤ (mobileMediaBlock o).delta ∧ (mobileMediaBlock o).delta ≤ 1 := by
  unfold mobileMediaBlock
  try dsimp only
  repeat' split
  all_goals norm_num

theorem mobileMetaBlock_bounds (doc : List Elem) :
    0 ≤ (mobileMetaBlock doc).delta ∧ (mobileMetaBlock doc).delta ≤ 0.5 := by
  unfold mobileMetaBlock
  try dsimp only
  repeat' split
  all_goals norm_num

theorem mobileTouchIconBlock_bounds (doc : List Elem) :
    0 ≤ (mobileTouchIconBlock doc).delta ∧ (mobileTouchIconBlock doc).delta ≤ 0.5 := by
  unfold mobileTouchIconBlock
  try dsimp only
  repeat' split
  all_goals norm_num

theorem mobileResponsiveImgBlock_bounds (o : HtmlObs) :
    0 ≤ (mobileResponsiveImgBlock o).delta ∧ (mobileResponsiveImgBlock o).delta ≤ 1 := by
  unfold mobileResponsiveImgBlock
  try dsimp only
  repeat' split
  all_goals norm_num

theorem mobileFontBlock_bounds (o : HtmlObs) :
    (mobileFontBlock o).delta = 0 := by
  unfold mobileFontBlock
  try dsimp only
  repeat' split
  all_goals norm_num

/-- The mobile score stays within `[0, 5]`: the six blocks sum to at most
5 and the framework bonus is clamped to `max_score` as it is added. -/
theorem check_mobile_bounds (ctx : Ctx) :
    0 ≤ (check_mobile ctx).score ∧ (check_mobile ctx).score ≤ 5 := by
  have h1 := mobileViewportBlock_bounds ctx.response.doc
  have h2 := mobileMediaBlock_bounds ctx.response.obs
  have h3 := mobileMetaBlock_bounds ctx.response.doc
  have h4 := mobileTouchIconBlock_bounds ctx.response.doc
  have h5 := mobileResponsiveImgBlock_bounds ctx.response.obs
  have h6 := mobileFontBlock_bounds ctx.response.obs
  simp only [check_mobile]
  split
  · have hlen : (0 : ℚ) ≤ ((mobileFrameworks ctx.response.obs).length : ℚ) * 0.5 := by
      positivity
    constructor
    · exact le_min (by linarith [h1.1, h2.1, h3.1, h4.1, h5.1]) (by norm_num)
    · exact min_le_right _ _
  · constructor <;>
      linarith [h1.1, h1.2, h2.1, h2.2, h3.1, h3.2, h4.1, h4.2, h5.1, h5.2]

theorem psLoadBlock_bounds (e : ℚ) :
    0 ≤ (psLoadBlock e).delta ∧ (psLoadBlock e).delta ≤ 2 := by
  unfold psLoadBlock
  try dsimp only
  repeat' split
  all_goals norm_num

theorem psSizeBlock_bounds (n : Nat) :
    0 ≤ (psSizeBlock n).delta ∧ (psSizeBlock n).delta ≤ 1 := by
  unfold psSizeBlock
  try dsimp only
  repeat' split
  all_goals norm_num

theorem psHintsBlock_bounds (doc : List Elem) :
    0 ≤ (psHintsBlock doc).delta ∧ (psHintsBlock doc).delta ≤ 1 := by
  unfold psHintsBlock
  simp only
  split_ifs
  · exact ⟨le_min (by positivity) (by norm_num), min_le_right _ _⟩
  · norm_num

theorem psMinifiedBlock_bounds (doc : List Elem) :
    0 ≤ (psMinifiedBlock doc).delta ∧ (psMinifiedBlock doc).delta ≤ 0.5 := by
  unfold psMinifiedBlock
  try dsimp only
  repeat' split
  all_goals norm_num

theorem psImagesBlock_bounds (doc : List Elem) :
    0 ≤ (psImagesBlock doc).delta ∧ (psImagesBlock doc).delta ≤ 0.5 := by
  unfold psImagesBlock
  try dsimp only
  repeat' split
  all_goals norm_num

theorem psCacheBlock_bounds (hs : List (String × String)) :
    0 ≤ (psCacheBlock hs).delta ∧ (psCacheBlock hs).delta ≤ 0.5 := by
  unfold psCacheBlock
  try dsimp only
  repeat' split
  all_goals norm_num

theorem psCompressionBlock_bounds (hs : List (String × String)) :
    0 ≤ (psCompressionBlock hs).delta ∧ (psCompressionBlock hs).delta ≤ 0.5 := by
  unfold psCompressionBlock
  try dsimp only
  repeat' split
  all_goals norm_num

theorem psRenderBlock_bounds (doc : List Elem) :
    0 ≤ (psRenderBlock doc).delta ∧ (psRenderBlock doc).delta ≤ 0.5 := by
  unfold psRenderBlock
  try dsimp only
  repeat' split
  all_goals norm_num

/-- The page-speed score is the unclamped sum of eight block increments
whose maxima add to 6.5, above its `max_score` of 5. -/
theorem check_page_speed_bounds (ctx : Ctx) :
    0 ≤ (check_page_speed ctx).score ∧ (check_page_speed ctx).score ≤ 6.5 := by
  have h1 := psLoadBlock_bounds ctx.response.elapsed
  have h2 := psSizeBlock_bounds ctx.response.htmlLen
  have h3 := psHintsBlock_bounds ctx.response.doc
  have h4 := psMinifiedBlock_bounds ctx.response.doc
  have h5 := psImagesBlock_bounds ctx.response.doc
  have h6 := psCacheBlock_bounds ctx.response.headers
  have h7 := psCompressionBlock_bounds ctx.response.headers
  have h8 := psRenderBlock_bounds ctx.response.doc
  simp only [check_page_speed]
  constructor <;>
    linarith [h1.1, h1.2, h2.1, h2.2, h3.1, h3.2, h4.1, h4.2, h5.1, h5.2,
              h6.1, h6.2, h7.1, h7.2, h8.1, h8.2]

/-- The tech-stack score is clamped to `[-5, 10]` at category exit. -/
theorem analyze_tech_stack_bounds (ctx : Ctx) :
    -5 ≤ (analyze_tech_stack ctx).score ∧ (analyze_tech_stack ctx).score ≤ 10 := by
  simp only [analyze_tech_stack]
  exact ⟨le_max_left _ _, max_le (by norm_num) (min_le_right _ _)⟩

theorem uiFaviconBlock_bounds (doc : List Elem) :
    0 ≤ (uiFaviconBlock doc).delta ∧ (uiFaviconBlock doc).delta ≤ 0.5 := by
  unfold uiFaviconBlock
  try dsimp only
  repeat' split
  all_goals norm_num

theorem uiH1Block_bounds (doc : List Elem) :
    0 ≤ (uiH1Block doc).delta ∧ (uiH1Block doc).delta ≤ 0.5 := by
  unfold uiH1Block
  try dsimp only
  repeat' split
  all_goals norm_num

theorem uiHierarchyBlock_bounds (doc : List Elem) :
    0 ≤ (uiHierarchyBlock doc).delta ∧ (uiHierarchyBlock doc).delta ≤ 0.5 := by
  unfold uiHierarchyBlock
  try dsimp only
  repeat' split
  all_goals norm_num

theorem uiFontBlock_bounds (o : HtmlObs) :
    0 ≤ (uiFontBlock o).delta ∧ (uiFontBlock o).delta ≤ 0.5 := by
  unfold uiFontBlock
  try dsimp only
  repeat' split
  all_goals norm_num

theorem uiColorBlock_bounds (o : HtmlObs) :
    0 ≤ (uiColorBlock o).delta ∧ (uiColorBlock o).delta ≤ 0.5 := by
  unfold uiColorBlock
  try dsimp only
  repeat' split
  all_goals norm_num

theorem uiResponsiveImgBlock_bounds (doc : List Elem) :
    0 ≤ (uiResponsiveImgBlock doc).delta ∧ (uiResponsiveImgBlock doc).delta ≤ 0.5 := by
  unfold uiResponsiveImgBlock
  try dsimp only
  repeat' split
  all_goals norm_num

theorem uiCssBlock_bounds (o : HtmlObs) :
    0 ≤ (uiCssBlock o).delta ∧ (uiCssBlock o).delta ≤ 1 := by
  unfold uiCssBlock
  try dsimp only
  repeat' split
  all_goals norm_num

theorem uiWhitespaceBlock_bounds (o : HtmlObs) :
    0 ≤ (uiWhitespaceBlock o).delta ∧ (uiWhitespaceBlock o).delta ≤ 0.5 := by
  unfold uiWhitespaceBlock
  try dsimp only
  repeat' split
  all_goals norm_num

theorem uiMobileMenuBlock_bounds (o : HtmlObs) :
    0 ≤ (uiMobileMenuBlock o).delta ∧ (uiMobileMenuBlock o).delta ≤ 0.5 := by
  unfold uiMobileMenuBlock
  try dsimp only
  repeat' split
  all_goals norm_num

/-- The UI-quality score lies in `[0, 5]`: its nine blocks' maxima sum to
exactly 5. -/
theorem check_ui_quality_bounds (ctx : Ctx) :
    0 ≤ (check_ui_quality ctx).score ∧ (check_ui_quality ctx).score ≤ 5 := by
  have h1 := uiFaviconBlock_bounds ctx.response.doc
  have h2 := uiH1Block_bounds ctx.response.doc
  have h3 := uiHierarchyBlock_bounds ctx.response.doc
  have h4 := uiFontBlock_bounds ctx.response.obs
  have h5 := uiColorBlock_bounds ctx.response.obs
  have h6 := uiResponsiveImgBlock_bounds ctx.response.doc
  have h7 := uiCssBlock_bounds ctx.response.obs
  have h8 := uiWhitespaceBlock_bounds ctx.response.obs
  have h9 := uiMobileMenuBlock_bounds ctx.response.obs
  simp only [check_ui_quality]
  constructor <;>
    linarith [h1.1, h1.2, h2.1, h2.2, h3.1, h3.2, h4.1, h4.2, h5.1, h5.2,
              h6.1, h6.2, h7.1, h7.2, h8.1, h8.2, h9.1, h9.2]

theorem seoTitleBlock_bounds (doc : List Elem) :
    0 ≤ (seoTitleBlock doc).delta ∧ (seoTitleBlock doc).delta ≤ 1 := by
  unfold seoTitleBlock
  try dsimp only
  repeat' split
  all_goals norm_num

theorem seoDescBlock_bounds (doc : List Elem) :
    0 ≤ (seoDescBlock doc).delta ∧ (seoDescBlock doc).delta ≤ 1 := by
  unfold seoDescBlock
  try dsimp only
  repeat' split
  all_goals norm_num

theorem seoCanonicalBlock_bounds (doc : List Elem) :
    0 ≤ (seoCanonicalBlock doc).delta ∧ (seoCanonicalBlock doc).delta ≤ 0.5 := by
  unfold seoCanonicalBlock
  try dsimp only
  repeat' split
  all_goals norm_num

theorem seoH1Block_bounds (doc : List Elem) :
    0 ≤ (seoH1Block doc).delta ∧ (seoH1Block doc).delta ≤ 0.75 := by
  unfold seoH1Block
  try dsimp only
  repeat' split
  all_goals norm_num

theorem seoAltBlock_bounds (doc : List Elem) :
    0 ≤ (seoAltBlock doc).delta ∧ (seoAltBlock doc).delta ≤ 0.5 := by
  unfold seoAltBlock
  try dsimp only
  repeat' split
  all_goals norm_num

theorem seoStructuredBlock_bounds (o : HtmlObs) :
    0 ≤ (seoStructuredBlock o).delta ∧ (seoStructuredBlock o).delta ≤ 0.5 := by
  unfold seoStructuredBlock
  try dsimp only
  repeat' split
  all_goals norm_num

theorem seoOgBlock_bounds (doc : List Elem) :
    0 ≤ (seoOgBlock doc).delta ∧ (seoOgBlock doc).delta ≤ 0.25 := by
  unfold seoOgBlock
  try dsimp only
  repeat' split
  all_goals norm_num

theorem seoTwitterBlock_bounds (doc : List Elem) :
    0 ≤ (seoTwitterBlock doc).delta ∧ (seoTwitterBlock doc).delta ≤ 0.25 := by
  unfold seoTwitterBlock
  try dsimp only
  repeat' split
  all_goals norm_num

theorem seoCleanUrlBlock_bounds (u : Url) :
    0 ≤ (seoCleanUrlBlock u).delta ∧ (seoCleanUrlBlock u).delta ≤ 0.25 := by
  unfold seoCleanUrlBlock
  try dsimp only
  repeat' split
  all_goals norm_num

theorem seoUrlKeywordBlock_bounds (doc : List Elem) (u : Url) :
    0 ≤ (seoUrlKeywordBlock doc u).delta ∧ (seoUrlKeywordBlock doc u).delta ≤ 0.25 := by
  unfold seoUrlKeywordBlock
  try dsimp only
  repeat' split
  all_goals norm_num

theorem seoRobotsBlock_bounds (doc : List Elem) :
    (seoRobotsBlock doc).delta = 0 := by
  unfold seoRobotsBlock
  try dsimp only
  repeat' split
  all_goals norm_num

theorem seoSitemapBlock_bounds (o : HtmlObs) :
    0 ≤ (seoSitemapBlock o).delta ∧ (seoSitemapBlock o).delta ≤ 0.25 := by
  unfold seoSitemapBlock
  try dsimp only
  repeat' split
  all_goals norm_num

/-- The SEO score is the unclamped sum of block increments whose maxima
add to 5.5, above its `max_score` of 5. -/
theorem check_seo_bounds (ctx : Ctx) :
    0 ≤ (check_seo ctx).score ∧ (check_seo ctx).score ≤ 5.5 := by
  have h1 := seoTitleBlock_bounds ctx.response.doc
  have h2 := seoDescBlock_bounds ctx.response.doc
  have h3 := seoCanonicalBlock_bounds ctx.response.doc
  have h4 := seoH1Block_bounds ctx.response.doc
  have h5 := seoAltBlock_bounds ctx.response.doc
  have h6 := seoStructuredBlock_bounds ctx.response.obs
  have h7 := seoOgBlock_bounds ctx.response.doc
  have h8 := seoTwitterBlock_bounds ctx.response.doc
  have h9 := seoCleanUrlBlock_bounds ctx.url
  have h10 := seoUrlKeywordBlock_bounds ctx.response.doc ctx.url
  have h11 := seoRobotsBlock_bounds ctx.response.doc
  have h12 := seoSitemapBlock_bounds ctx.response.obs
  simp only [check_seo]
  constructor <;>
    linarith [h1.1, h1.2, h2.1, h2.2, h3.1, h3.2, h4.1, h4.2, h5.1, h5.2,
              h6.1, h6.2, h7.1, h7.2, h8.1, h8.2, h9.1, h9.2, h10.1, h10.2,
              h12.1, h12.2]

theorem secHttpsBlock_bounds (u : Url) :
    0 ≤ (secHttpsBlock u).delta ∧ (secHttpsBlock u).delta ≤ 1 := by
  unfold secHttpsBlock
  try dsimp only
  repeat' split
  all_goals norm_num

theorem secHeadersBlock_bounds (hs : List (String × String)) :
    0 ≤ (secHeadersBlock hs).delta ∧ (secHeadersBlock hs).delta ≤ 2 := by
  unfold secHeadersBlock
  try dsimp only
  repeat' split
  all_goals norm_num

theorem secMissingBlock_bounds (hs : List (String × String)) :
    (secMissingBlock hs).delta = 0 := by
  unfold secMissingBlock
  try dsimp only
  repeat' split
  all_goals norm_num

theorem secCookieBlock_bounds (cs : List Cookie) :
    0 ≤ (secCookieBlock cs).delta ∧ (secCookieBlock cs).delta ≤ 1 := by
  unfold secCookieBlock
  try dsimp only
  repeat' split
  all_goals norm_num

theorem secSriBlock_bounds (doc : List Elem) :
    0 ≤ (secSriBlock doc).delta ∧ (secSriBlock doc).delta ≤ 0.5 := by
  unfold secSriBlock
  try dsimp only
  repeat' split
  all_goals norm_num

theorem secMixedBlock_bounds (u : Url) (o : HtmlObs) :
    0 ≤ (secMixedBlock u o).delta ∧ (secMixedBlock u o).delta ≤ 0.5 := by
  unfold secMixedBlock
  try dsimp only
  repeat' split
  all_goals norm_num

/-- The security-headers score lies in `[0, 5]`. -/
theorem check_security_headers_bounds (ctx : Ctx) :
    0 ≤ (check_security_headers ctx).score ∧ (check_security_headers ctx).score ≤ 5 := by
  have h1 := secHttpsBlock_bounds ctx.url
  have h2 := secHeadersBlock_bounds ctx.response.headers
  have h3 := secMissingBlock_bounds ctx.response.headers
  have h4 := secCookieBlock_bounds ctx.response.cookies
  have h5 := secSriBlock_bounds ctx.response.doc
  have h6 := secMixedBlock_bounds ctx.url ctx.response.obs
  simp only [check_security_headers]
  constructor <;>
    linarith [h1.1, h1.2, h2.1, h2.2, h4.1, h4.2, h5.1, h5.2, h6.1, h6.2]

theorem accLangBlock_bounds (doc : List Elem) :
    0 ≤ (accLangBlock doc).delta ∧ (accLangBlock doc).delta ≤ 0.5 := by
  unfold accLangBlock
  try dsimp only
  repeat' split
  all_goals norm_num

theorem accAltBlock_bounds (doc : List Elem) :
    0 ≤ (accAltBlock doc).delta ∧ (accAltBlock doc).delta ≤ 1 := by
  unfold accAltBlock
  try dsimp only
  repeat' split
  all_goals norm_num

theorem accLabelBlock_bounds (doc : List Elem) :
    0 ≤ (accLabelBlock doc).delta ∧ (accLabelBlock doc).delta ≤ 1 := by
  unfold accLabelBlock
  try dsimp only
  repeat' split
  all_goals norm_num

theorem accAriaBlock_bounds (doc : List Elem) :
    0 ≤ (accAriaBlock doc).delta ∧ (accAriaBlock doc).delta ≤ 0.5 := by
  unfold accAriaBlock
  try dsimp only
  repeat' split
  all_goals norm_num

theorem accSkipLinkBlock_bounds (doc : List Elem) :
    0 ≤ (accSkipLinkBlock doc).delta ∧ (accSkipLinkBlock doc).delta ≤ 0.5 := by
  unfold accSkipLinkBlock
  try dsimp only
  repeat' split
  all_goals norm_num

theorem accContrastBlock_bounds (o : HtmlObs) :
    0 ≤ (accContrastBlock o).delta ∧ (accContrastBlock o).delta ≤ 0.5 := by
  unfold accContrastBlock
  try dsimp only
  repeat' split
  all_goals norm_num

theorem accTabindexBlock_bounds (doc : List Elem) :
    (accTabindexBlock doc).delta = 0 := by
  unfold accTabindexBlock
  try dsimp only
  repeat' split
  all_goals norm_num

theorem accSemanticBlock_bounds (doc : List Elem) :
    0 ≤ (accSemanticBlock doc).delta ∧ (accSemanticBlock doc).delta ≤ 0.5 := by
  unfold accSemanticBlock
  try dsimp only
  repeat' split
  all_goals norm_num

theorem accHeadingBlock_bounds (doc : List Elem) :
    0 ≤ (accHeadingBlock doc).delta ∧ (accHeadingBlock doc).delta ≤ 0.5 := by
  unfold accHeadingBlock
  try dsimp only
  repeat' split
  all_goals norm_num

/-- The accessibility score lies in `[0, 5]`. -/
theorem check_accessibility_bounds (ctx : Ctx) :
    0 ≤ (check_accessibility ctx).score ∧ (check_accessibility ctx).score ≤ 5 := by
  have h1 := accLangBlock_bounds ctx.response.doc
  have h2 := accAltBlock_bounds ctx.response.doc
  have h3 := accLabelBlock_bounds ctx.response.doc
  have h4 := accAriaBlock_bounds ctx.response.doc
  have h5 := accSkipLinkBlock_bounds ctx.response.doc
  have h6 := accContrastBlock_bounds ctx.response.obs
  have h7 := accTabindexBlock_bounds ctx.response.doc
  have h8 := accSemanticBlock_bounds ctx.response.doc
  have h9 := accHeadingBlock_bounds ctx.response.doc
  simp only [check_accessibility]
  constructor <;>
    linarith [h1.1, h1.2, h2.1, h2.2, h3.1, h3.2, h4.1, h4.2, h5.1, h5.2,
              h6.1, h6.2, h8.1, h8.2, h9.1, h9.2]

theorem contentWordBlock_bounds (doc : List Elem) :
    0 ≤ (contentWordBlock doc).delta ∧ (contentWordBlock doc).delta ≤ 1 := by
  unfold contentWordBlock
  try dsimp only
  repeat' split
  all_goals norm_num

theorem contentDateBlock_bounds (o : HtmlObs) (c : Clock) :
    0 ≤ (contentDateBlock o c).delta ∧ (contentDateBlock o c).delta ≤ 1 := by
  unfold contentDateBlock
  try dsimp only
  repeat' split
  all_goals norm_num

theorem contentSocialBlock_bounds (doc : List Elem) :
    0 ≤ (contentSocialBlock doc).delta ∧ (contentSocialBlock doc).delta ≤ 0.5 := by
  unfold contentSocialBlock
  try dsimp only
  repeat' split
  all_goals norm_num

theorem contentContactBlock_bounds (o : HtmlObs) :
    0 ≤ (contentContactBlock o).delta ∧ (contentContactBlock o).delta ≤ 0.5 := by
  unfold contentContactBlock
  try dsimp only
  repeat' split
  all_goals norm_num

theorem contentMediaBlock_bounds (doc : List Elem) :
    0 ≤ (contentMediaBlock doc).delta ∧ (contentMediaBlock doc).delta ≤ 0.75 := by
  unfold contentMediaBlock
  try dsimp only
  repeat' split
  all_goals norm_num

theorem contentInteractiveBlock_bounds (doc : List Elem) :
    0 ≤ (contentInteractiveBlock doc).delta ∧ (contentInteractiveBlock doc).delta ≤ 0.5 := by
  unfold contentInteractiveBlock
  try dsimp only
  repeat' split
  all_goals norm_num

theorem contentBlogBlock_bounds (o : HtmlObs) :
    0 ≤ (contentBlogBlock o).delta ∧ (contentBlogBlock o).delta ≤ 0.25 := by
  unfold contentBlogBlock
  try dsimp only
  repeat' split
  all_goals norm_num

/-- The content-quality score lies in `[0, 4.5]` (its block maxima sum to
4.5, within its `max_score` of 5). -/
theorem check_content_quality_bounds (ctx : Ctx) :
    0 ≤ (check_content_quality ctx).score ∧ (check_content_quality ctx).score ≤ 4.5 := by
  have h1 := contentWordBlock_bounds ctx.response.doc
  have h2 := contentDateBlock_bounds ctx.response.obs ctx.clock
  have h3 := contentSocialBlock_bounds ctx.response.doc
  have h4 := contentContactBlock_bounds ctx.response.obs
  have h5 := contentMediaBlock_bounds ctx.response.doc
  have h6 := contentInteractiveBlock_bounds ctx.response.doc
  have h7 := contentBlogBlock_bounds ctx.response.obs
  simp only [check_content_quality]
  constructor <;>
    linarith [h1.1, h1.2, h2.1, h2.2, h3.1, h3.2, h4.1, h4.2, h5.1, h5.2,
              h6.1, h6.2, h7.1, h7.2]

/-! ## Aggregation lemmas -/

theorem check_ssl_max_score (ctx : Ctx) : (check_ssl ctx).max_score = 5 := rfl

theorem check_mobile_max_score (ctx : Ctx) : (check_mobile ctx).max_score = 5 := rfl

theorem check_page_speed_max_score (ctx : Ctx) : (check_page_speed ctx).max_score = 5 := rfl

theorem analyze_tech_stack_max_score (ctx : Ctx) : (analyze_tech_stack ctx).max_score = 10 := rfl

theorem check_ui_quality_max_score (ctx : Ctx) : (check_ui_quality ctx).max_score = 5 := rfl

theorem check_seo_max_score (ctx : Ctx) : (check_seo ctx).max_score = 5 := rfl

theorem check_security_headers_max_score (ctx : Ctx) :
    (check_security_headers ctx).max_score = 5 := rfl

theorem check_accessibility_max_score (ctx : Ctx) :
    (check_accessibility ctx).max_score = 5 := rfl

theorem check_content_quality_max_score (ctx : Ctx) :
    (check_content_quality ctx).max_score = 5 := rfl

theorem weightOf_ssl : weightOf "ssl" = 10 := rfl

theorem weightOf_mobile : weightOf "mobile" = 15 := rfl

theorem weightOf_page_speed : weightOf "page_speed" = 15 := rfl

theorem weightOf_tech_stack : weightOf "tech_stack" = 25 := rfl

theorem weightOf_ui_quality : weightOf "ui_quality" = 10 := rfl

theorem weightOf_seo : weightOf "seo" = 5 := rfl

theorem weightOf_security : weightOf "security" = 10 := rfl

theorem weightOf_accessibility : weightOf "accessibility" = 5 := rfl

theorem weightOf_content : weightOf "content" = 5 := rfl

/-- The fold over the category mapping, in closed form: each category
contributes `(score / max_score) * 100 * weight / 100`, which with the
fixed maxima and weights is the displayed linear combination. -/
theorem totalScoreRaw_runCategories (ctx : Ctx) :
    totalScoreRaw (runCategories ctx) =
      2 * (check_ssl ctx).score + 3 * (check_mobile ctx).score
        + 3 * (check_page_speed ctx).score + 5/2 * (analyze_tech_stack ctx).score
        + 2 * (check_ui_quality ctx).score + (check_seo ctx).score
        + 2 * (check_security_headers ctx).score + (check_accessibility ctx).score
        + (check_content_quality ctx).score := by
  simp only [totalScoreRaw, runCategories, List.foldl,
    check_ssl_max_score, check_mobile_max_score, check_page_speed_max_score,
    analyze_tech_stack_max_score, check_ui_quality_max_score, check_seo_max_score,
    check_security_headers_max_score, check_accessibility_max_score,
    check_content_quality_max_score,
    weightOf_ssl, weightOf_mobile, weightOf_page_speed, weightOf_tech_stack,
    weightOf_ui_quality, weightOf_seo, weightOf_security, weightOf_accessibility,
    weightOf_content]
  ring

/-- The raw weighted total over any page lies in `[-12.5, 106.5]`: the
lower end comes from the tech-stack floor of -5 (weight 25, maximum 10),
the upper end from the category maxima, three of which exceed their
`max_score`. -/
theorem totalScoreRaw_bounds (ctx : Ctx) :
    -12.5 ≤ totalScoreRaw (runCategories ctx)
      ∧ totalScoreRaw (runCategories ctx) ≤ 106.5 := by
  rw [totalScoreRaw_runCategories]
  have h1 := check_ssl_bounds ctx
  have h2 := check_mobile_bounds ctx
  have h3 := check_page_speed_bounds ctx
  have h4 := analyze_tech_stack_bounds ctx
  have h5 := check_ui_quality_bounds ctx
  have h6 := check_seo_bounds ctx
  have h7 := check_security_headers_bounds ctx
  have h8 := check_accessibility_bounds ctx
  have h9 := check_content_quality_bounds ctx
  constructor <;>
    linarith [h1.1, h1.2, h2.1, h2.2, h3.1, h3.2, h4.1, h4.2, h5.1, h5.2,
              h6.1, h6.2, h7.1, h7.2, h8.1, h8.2, h9.1, h9.2]

/-- `round(x, 1)` is monotone. -/
theorem round1_mono {x y : ℚ} (h : x ≤ y) : round1 x ≤ round1 y := by
  unfold round1
  have hr : round (x * 10) ≤ round (y * 10) := by
    rw [round_eq, round_eq]
    exact Int.floor_mono (by linarith)
  have := (div_le_div_iff_of_pos_right (c := (10 : ℚ)) (by norm_num)).mpr
    (Int.cast_le.mpr hr)
  exact this

/-- `round(x, 1)` fixes multiples of one tenth. -/
theorem round1_tenth (z : ℤ) : round1 ((z : ℚ) / 10) = (z : ℚ) / 10 := by
  unfold round1
  rw [show ((z : ℚ) / 10) * 10 = (z : ℚ) by ring, round_intCast]

/-! ## Concrete pages

`richDoc` is a well-optimized HTTPS page with an EV certificate; on it the
SSL analyzer reaches 6/5, page speed 6.5/5, SEO 5.5/5 and the weighted
total 102.  `techOnlyCtx` is a page whose body matches exactly the React
and jQuery tech-stack rules.  `noImgCtx` has no `img` elements.
`probeFailCtx` is an HTTPS page whose certificate probe failed. -/

def descStr : String := "A hello world page with a sufficiently long description"

def richDoc : List Elem :=
  [{ tag := "html", attrs := [("lang", "en")] },
   { tag := "title", attrs := [], text := "Hello World Page" },
   { tag := "meta",
     attrs := [("name", "viewport"), ("content", "width=device-width, initial-scale=1")] },
   { tag := "meta", attrs := [("name", "description"), ("content", descStr)] },
   { tag := "meta", attrs := [("name", "mobile-web-app-capable"), ("content", "yes")] },
   { tag := "meta", attrs := [("property", "og:title"), ("content", "Hello")] },
   { tag := "meta", attrs := [("name", "twitter:card"), ("content", "summary")] },
   { tag := "link", attrs := [("rel", "icon"), ("href", "favicon.ico"), ("integrity", "sha384-aaa")] },
   { tag := "link", attrs := [("rel", "apple-touch-icon"), ("href", "icon.png"), ("integrity", "sha384-aaa")] },
   { tag := "link", attrs := [("rel", "canonical"), ("href", "https://example.com/hello"), ("integrity", "sha384-aaa")] },
   { tag := "link", attrs := [("rel", "preload"), ("href", "a1.js"), ("integrity", "sha384-aaa")] },
   { tag := "link", attrs := [("rel", "preload"), ("href", "a2.js"), ("integrity", "sha384-aaa")] },
   { tag := "link", attrs := [("rel", "preload"), ("href", "a3.js"), ("integrity", "sha384-aaa")] },
   { tag := "link", attrs := [("rel", "preload"), ("href", "a4.js"), ("integrity", "sha384-aaa")] },
   { tag := "link", attrs := [("rel", "preload"), ("href", "a5.js"), ("integrity", "sha384-aaa")] },
   { tag := "script", attrs := [("src", "app.min.js"), ("async", "async"), ("integrity", "sha384-aaa")] },
   { tag := "header", attrs := [] },
   { tag := "nav", attrs := [] },
   { tag := "main", attrs := [] },
   { tag := "h1", attrs := [], text := "Hello World" },
   { tag := "img",
     attrs := [("src", "hello.png"), ("alt", "Hello image"), ("loading", "lazy"),
               ("srcset", "hello.png 1x")] },
   { tag := "a", attrs := [("href", "#main")] },
   { tag := "input", attrs := [("type", "text"), ("aria-label", "Name")] },
   { tag := "footer", attrs := [] }]

def richObs : HtmlObs :=
  { mediaQueriesCount := 1, responsiveImgCount := 1, nextJs := true, nuxt := true,
    cssFeatureCount := 3, whitespaceCount := 21, mobileMenu := true,
    structuredData := true, sitemapLink := true }

def richResponse : Response :=
  { statusCode := 200,
    headers := [("Strict-Transport-Security", "max-age=31536000"),
                ("Content-Security-Policy", "default-src"),
                ("X-Content-Type-Options", "nosniff"),
                ("X-Frame-Options", "DENY"),
                ("Referrer-Policy", "no-referrer"),
                ("Cache-Control", "max-age=0"), ("ETag", "abc"),
                ("Content-Encoding", "gzip")],
    cookies := [{ secure := true, httpOnly := true, sameSite := false }],
    elapsed := 1/2, doc := richDoc, htmlLen := 9000, obs := richObs }

def richCert : Cert :=
  { notBefore := -100, notAfter := 200, issuerOrg := "TestCA",
    subject := ["jurisdictionCountryName"] }

def richClock : Clock :=
  { nowDay := 0, currentYear := 2025, timestamp := "2025-01-01 00:00:00" }

def richUrl : Url := { raw := "https://example.com/hello", path := "/hello", query := "" }

def richCtx : Ctx :=
  { url := richUrl, response := richResponse, probe := some richCert, clock := richClock }

def richInput : Input :=
  { url := richUrl, attempts := fun _ => .ok richResponse, maxRetries := 2,
    loadTime := 1/2, probe := some richCert, clock := richClock }

def techOnlyCtx : Ctx :=
  { url := { raw := "https://example.com" },
    response := { statusCode := 200, obs := { react := true, jquery := true } },
    clock := richClock }

def noImgCtx : Ctx :=
  { url := { raw := "http://example.com" }, response := { statusCode := 200 },
    clock := richClock }

def probeFailInput : Input :=
  { url := { raw := "https://example.com" },
    attempts := fun _ => .ok { statusCode := 200 }, probe := none, clock := richClock }

def blockedInput : Input :=
  { url := { raw := "https://example.com" },
    attempts := fun _ => .ok { statusCode := 403 }, clock := richClock }

def failingInput : Input :=
  { url := { raw := "https://example.com" },
    attempts := fun i => .error ("Connection error on attempt " ++ toString i),
    maxRetries := 2, clock := richClock }

/-! ## Run-level helpers -/

/-- A successful outcome is exactly a fetched, non-403 response fed to
`buildResult`. -/
theorem success_eq_buildResult {inp : Input} {r : AnalysisResult}
    (h : analyze_website inp = .success r) :
    ∃ resp, get_with_retry inp.attempts inp.maxRetries = .ok resp
      ∧ resp.statusCode ≠ 403 ∧ r = buildResult inp resp := by
  unfold analyze_website at h
  rcases hg : get_with_retry inp.attempts inp.maxRetries with e | resp
  · rw [hg] at h
    simp at h
  · rw [hg] at h
    by_cases hc : resp.statusCode = 403
    · simp [hc] at h
    · simp only [hc, if_false] at h
      exact ⟨resp, rfl, hc, by injection h with h; exact h.symm⟩

/-- The five classification cases of the threshold ladder. -/
theorem classify_cases (t : ℚ) :
    (80 ≤ t → classify t = ("Excellent", "Low-Priority Lead"))
    ∧ (65 ≤ t → t < 80 → classify t = ("Good", "Maintenance Lead"))
    ∧ (50 ≤ t → t < 65 → classify t = ("Average", "Potential Lead"))
    ∧ (35 ≤ t → t < 50 → classify t = ("Outdated", "Potential Lead"))
    ∧ (t < 35 → classify t = ("Poor", "High-Priority Lead")) := by
  unfold classify
  refine ⟨?_, ?_, ?_, ?_, ?_⟩ <;> intros <;> split_ifs <;> first | rfl | linarith

/-- The category fold written out term by term, in the shape of the
source expression `(score / max_score) * 100 * weight / 100`. -/
theorem totalScoreRaw_explicit (ctx : Ctx) :
    totalScoreRaw (runCategories ctx) =
      (check_ssl ctx).score / (check_ssl ctx).max_score * 100 * 10 / 100
      + (check_mobile ctx).score / (check_mobile ctx).max_score * 100 * 15 / 100
      + (check_page_speed ctx).score / (check_page_speed ctx).max_score * 100 * 15 / 100
      + (analyze_tech_stack ctx).score / (analyze_tech_stack ctx).max_score * 100 * 25 / 100
      + (check_ui_quality ctx).score / (check_ui_quality ctx).max_score * 100 * 10 / 100
      + (check_seo ctx).score / (check_seo ctx).max_score * 100 * 5 / 100
      + (check_security_headers ctx).score / (check_security_headers ctx).max_score * 100 * 10 / 100
      + (check_accessibility ctx).score / (check_accessibility ctx).max_score * 100 * 5 / 100
      + (check_content_quality ctx).score / (check_content_quality ctx).max_score * 100 * 5 / 100 := by
  simp only [totalScoreRaw, runCategories, List.foldl,
    weightOf_ssl, weightOf_mobile, weightOf_page_speed, weightOf_tech_stack,
    weightOf_ui_quality, weightOf_seo, weightOf_security, weightOf_accessibility,
    weightOf_content]
  ring

/-! ## Claims -/

/-- C1: For every successful analysis run, the classification and
lead-potential labels are determined from the weighted total score by
exact closed-above thresholds: 80 and above yields Excellent/Low-Priority
Lead, then Good/Maintenance Lead from 65, Average/Potential Lead from 50,
Outdated/Potential Lead from 35, and Poor/High-Priority Lead below 35.
The value the source classifies on is the weighted total before the
one-decimal rounding; the result record stores that exact value in its
`percentage` field (source line 181), while `total_score` is its rounded
form. -/
theorem classification_thresholds (inp : Input) (r : AnalysisResult)
    (h : analyze_website inp = .success r) :
    (80 ≤ r.percentage →
      r.classification = "Excellent" ∧ r.lead_potential = "Low-Priority Lead")
    ∧ (65 ≤ r.percentage → r.percentage < 80 →
      r.classification = "Good" ∧ r.lead_potential = "Maintenance Lead")
    ∧ (50 ≤ r.percentage → r.percentage < 65 →
      r.classification = "Average" ∧ r.lead_potential = "Potential Lead")
    ∧ (35 ≤ r.percentage → r.percentage < 50 →
      r.classification = "Outdated" ∧ r.lead_potential = "Potential Lead")
    ∧ (r.percentage < 35 →
      r.classification = "Poor" ∧ r.lead_potential = "High-Priority Lead") := by
  obtain ⟨resp, hok, h403, hr⟩ := success_eq_buildResult h
  subst hr
  have hc := classify_cases (totalScoreRaw (runCategories (inp.ctx resp)))
  simp only [buildResult]
  refine ⟨fun h1 => ?_, fun h1 h2 => ?_, fun h1 h2 => ?_, fun h1 h2 => ?_, fun h1 => ?_⟩
  · rw [hc.1 h1]; exact ⟨rfl, rfl⟩
  · rw [hc.2.1 h1 h2]; exact ⟨rfl, rfl⟩
  · rw [hc.2.2.1 h1 h2]; exact ⟨rfl, rfl⟩
  · rw [hc.2.2.2.1 h1 h2]; exact ⟨rfl, rfl⟩
  · rw [hc.2.2.2.2 h1]; exact ⟨rfl, rfl⟩

set_option maxRecDepth 10000 in
unseal Rat.add Rat.mul Rat.inv Rat.sub Rat.ofScientific in
/-- Witness for C1: the concrete run on `richDoc` has weighted total 102,
so the first threshold case fires. -/
theorem classification_thresholds_witness :
    (buildResult richInput richResponse).classification = "Excellent"
      ∧ (buildResult richInput richResponse).lead_potential = "Low-Priority Lead" :=
  (classification_thresholds richInput (buildResult richInput richResponse) rfl).1
    (by decide)

/-- C2: For every successful analysis run, `total_score` is the sum over
the nine fixed category keys of `(score / max_score) * 100 * weight / 100`
rounded to one decimal, with the fixed weight table ssl 10, mobile 15,
page_speed 15, tech_stack 25, ui_quality 10, seo 5, security 10,
accessibility 5, content 5, whose entries sum to exactly 100. -/
theorem total_score_weighted_sum (inp : Input) (r : AnalysisResult)
    (h : analyze_website inp = .success r) :
    (category_weights.map Prod.snd).sum = 100
    ∧ ∃ c1 c2 c3 c4 c5 c6 c7 c8 c9,
        r.categories = [("ssl", c1), ("mobile", c2), ("page_speed", c3),
          ("tech_stack", c4), ("ui_quality", c5), ("seo", c6),
          ("security", c7), ("accessibility", c8), ("content", c9)]
        ∧ r.total_score = round1
            (c1.score / c1.max_score * 100 * 10 / 100
              + c2.score / c2.max_score * 100 * 15 / 100
              + c3.score / c3.max_score * 100 * 15 / 100
              + c4.score / c4.max_score * 100 * 25 / 100
              + c5.score / c5.max_score * 100 * 10 / 100
              + c6.score / c6.max_score * 100 * 5 / 100
              + c7.score / c7.max_score * 100 * 10 / 100
              + c8.score / c8.max_score * 100 * 5 / 100
              + c9.score / c9.max_score * 100 * 5 / 100) := by
  obtain ⟨resp, hok, h403, hr⟩ := success_eq_buildResult h
  subst hr
  constructor
  · norm_num [category_weights]
  · refine ⟨check_ssl (inp.ctx resp), check_mobile (inp.ctx resp),
      check_page_speed (inp.ctx resp), analyze_tech_stack (inp.ctx resp),
      check_ui_quality (inp.ctx resp), check_seo (inp.ctx resp),
      check_security_headers (inp.ctx resp), check_accessibility (inp.ctx resp),
      check_content_quality (inp.ctx resp), rfl, ?_⟩
    simp only [buildResult]
    rw [totalScoreRaw_explicit]

set_option maxRecDepth 10000 in
unseal Rat.add Rat.mul Rat.inv Rat.sub Rat.ofScientific in
/-- Witness for C2: the weighted-sum equation instantiated on the
concrete `richDoc` run. -/
theorem total_score_weighted_sum_witness :
    (category_weights.map Prod.snd).sum = 100
    ∧ ∃ c1 c2 c3 c4 c5 c6 c7 c8 c9,
        (buildResult richInput richResponse).categories
          = [("ssl", c1), ("mobile", c2), ("page_speed", c3),
             ("tech_stack", c4), ("ui_quality", c5), ("seo", c6),
             ("security", c7), ("accessibility", c8), ("content", c9)]
        ∧ (buildResult richInput richResponse).total_score = round1
            (c1.score / c1.max_score * 100 * 10 / 100
              + c2.score / c2.max_score * 100 * 15 / 100
              + c3.score / c3.max_score * 100 * 15 / 100
              + c4.score / c4.max_score * 100 * 25 / 100
              + c5.score / c5.max_score * 100 * 10 / 100
              + c6.score / c6.max_score * 100 * 5 / 100
              + c7.score / c7.max_score * 100 * 10 / 100
              + c8.score / c8.max_score * 100 * 5 / 100
              + c9.score / c9.max_score * 100 * 5 / 100) :=
  total_score_weighted_sum richInput (buildResult richInput richResponse) rfl

/-- C3 (amended): For every input page, Mobile, UIQuality,
SecurityHeaders, Accessibility and ContentQuality satisfy
`0 ≤ score ≤ max_score` and TechStack satisfies `-5 ≤ score ≤ 10`, but the
three analyzers without a final clamp obey only the wider bounds
`0 ≤ score ≤ 6` (SSL), `0 ≤ score ≤ 6.5` (PageSpeed) and
`0 ≤ score ≤ 5.5` (SEO): each can exceed its `max_score` of 5. -/
theorem category_score_bounds_amended (ctx : Ctx) :
    (0 ≤ (check_ssl ctx).score ∧ (check_ssl ctx).score ≤ 6)
    ∧ (0 ≤ (check_mobile ctx).score ∧ (check_mobile ctx).score ≤ (check_mobile ctx).max_score)
    ∧ (0 ≤ (check_page_speed ctx).score ∧ (check_page_speed ctx).score ≤ 6.5)
    ∧ (-5 ≤ (analyze_tech_stack ctx).score ∧ (analyze_tech_stack ctx).score ≤ 10)
    ∧ (0 ≤ (check_ui_quality ctx).score
        ∧ (check_ui_quality ctx).score ≤ (check_ui_quality ctx).max_score)
    ∧ (0 ≤ (check_seo ctx).score ∧ (check_seo ctx).score ≤ 5.5)
    ∧ (0 ≤ (check_security_headers ctx).score
        ∧ (check_security_headers ctx).score ≤ (check_security_headers ctx).max_score)
    ∧ (0 ≤ (check_accessibility ctx).score
        ∧ (check_accessibility ctx).score ≤ (check_accessibility ctx).max_score)
    ∧ (0 ≤ (check_content_quality ctx).score
        ∧ (check_content_quality ctx).score ≤ (check_content_quality ctx).max_score) := by
  rw [check_mobile_max_score, check_ui_quality_max_score, check_security_headers_max_score,
    check_accessibility_max_score, check_content_quality_max_score]
  have h9 := check_content_quality_bounds ctx
  exact ⟨check_ssl_bounds ctx, check_mobile_bounds ctx, check_page_speed_bounds ctx,
    analyze_tech_stack_bounds ctx, check_ui_quality_bounds ctx, check_seo_bounds ctx,
    check_security_headers_bounds ctx, check_accessibility_bounds ctx,
    ⟨h9.1, by linarith [h9.2]⟩⟩

set_option maxRecDepth 10000 in
unseal Rat.add Rat.mul Rat.inv Rat.sub Rat.ofScientific in
/-- Counterexample to C3 as stated: on the concrete page `richDoc` the
PageSpeed analyzer scores 6.5, the SSL analyzer 6 and the SEO analyzer
5.5 — each strictly above its `max_score` of 5, refuting
`0 ≤ score ≤ maxScore` for these three analyzers. -/
theorem category_score_bounds_counterexample :
    (check_page_speed richCtx).score = 6.5
      ∧ ¬((check_page_speed richCtx).score ≤ (check_page_speed richCtx).max_score)
      ∧ (check_ssl richCtx).score = 6
      ∧ ¬((check_ssl richCtx).score ≤ (check_ssl richCtx).max_score)
      ∧ (check_seo richCtx).score = 5.5
      ∧ ¬((check_seo richCtx).score ≤ (check_seo richCtx).max_score) := by
  refine ⟨by decide, by decide, by decide, by decide, by decide, by decide⟩

/-- C4 (amended): For every successful analysis run, both the unrounded
weighted total (`percentage`) and the rounded `total_score` lie in
`[-12.5, 106.5]`; the interval `[0, 100]` claimed by the specification is
not an invariant of the code. -/
theorem total_score_range_amended (inp : Input) (r : AnalysisResult)
    (h : analyze_website inp = .success r) :
    (-12.5 ≤ r.percentage ∧ r.percentage ≤ 106.5)
      ∧ (-12.5 ≤ r.total_score ∧ r.total_score ≤ 106.5) := by
  obtain ⟨resp, hok, h403, hr⟩ := success_eq_buildResult h
  subst hr
  have hb := totalScoreRaw_bounds (inp.ctx resp)
  have hlo : round1 (-12.5) = -12.5 := by
    have := round1_tenth (-125)
    norm_num at this ⊢
    convert this using 2
  have hhi : round1 106.5 = 106.5 := by
    have := round1_tenth 1065
    norm_num at this ⊢
    convert this using 2
  simp only [buildResult]
  refine ⟨⟨hb.1, hb.2⟩, ⟨?_, ?_⟩⟩
  · have := round1_mono hb.1
    rw [hlo] at this
    exact this
  · have := round1_mono hb.2
    rw [hhi] at this
    exact this

set_option maxRecDepth 10000 in
unseal Rat.add Rat.mul Rat.inv Rat.sub Rat.ofScientific in
/-- Counterexample to C4 as stated: the concrete run on `richDoc`
succeeds with `total_score = 102`, above 100. -/
theorem total_score_range_counterexample :
    analyze_website richInput = .success (buildResult richInput richResponse)
      ∧ (buildResult richInput richResponse).total_score = 102
      ∧ ¬((buildResult richInput richResponse).total_score ≤ 100) :=
  ⟨rfl, by decide, by decide⟩

set_option maxRecDepth 10000 in
unseal Rat.add Rat.mul Rat.inv Rat.sub Rat.ofScientific in
/-- Witness for the amended C4 at the concrete `richDoc` run. -/
theorem total_score_range_amended_witness :
    (-12.5 ≤ (buildResult richInput richResponse).percentage
        ∧ (buildResult richInput richResponse).percentage ≤ 106.5)
      ∧ (-12.5 ≤ (buildResult richInput richResponse).total_score
        ∧ (buildResult richInput richResponse).total_score ≤ 106.5) :=
  total_score_range_amended richInput (buildResult richInput richResponse) rfl

/-- C5: On a body matching exactly the React (+4) and jQuery (-3)
tech-stack rules and no other, the mixing penalty (-2) also fires, the
final score is -1 (inside the clamp range), the category percentage is
-10, and the weighted tech-stack term of the total is -2.5, a strictly
negative contribution. -/
theorem tech_stack_react_jquery_mix (ctx : Ctx)
    (hreact : ctx.response.obs.react = true) (hjquery : ctx.response.obs.jquery = true)
    (f1 : ctx.response.obs.nextJs = false) (f2 : ctx.response.obs.vue3 = false)
    (f3 : ctx.response.obs.nuxt = false) (f4 : ctx.response.obs.angular = false)
    (f5 : ctx.response.obs.svelte = false) (f6 : ctx.response.obs.remix = false)
    (f7 : ctx.response.obs.gatsby = false) (f8 : ctx.response.obs.bootstrap = false)
    (f9 : ctx.response.obs.wordpress = false) (f10 : ctx.response.obs.php = false)
    (f11 : ctx.response.obs.aspnet = false) (f12 : ctx.response.obs.typescript = false)
    (f13 : ctx.response.obs.es6Plus = false) (f14 : ctx.response.obs.webComponents = false)
    (f15 : ctx.response.obs.moduleBundler = false) (f16 : ctx.response.obs.lazyLoading = false)
    (f17 : ctx.response.obs.codeSplitting = false) (f18 : ctx.response.obs.serviceWorker = false)
    (f19 : ctx.response.obs.pwa = false) :
    (analyze_tech_stack ctx).score = -1
    ∧ "Mixing modern and legacy technologies (not recommended)"
        ∈ (analyze_tech_stack ctx).issues
    ∧ (analyze_tech_stack ctx).score / (analyze_tech_stack ctx).max_score * 100 = -10
    ∧ (analyze_tech_stack ctx).score / (analyze_tech_stack ctx).max_score * 100
        * weightOf "tech_stack" / 100 < 0 := by
  have hscore : (analyze_tech_stack ctx).score = -1 := by
    simp only [analyze_tech_stack, modernFrameworkRules, legacyFrameworkRules,
      modernFeatureRules, optimizationRules, ruleSum, ruleAny,
      hreact, hjquery, f1, f2, f3, f4, f5, f6, f7, f8, f9, f10, f11, f12, f13,
      f14, f15, f16, f17, f18, f19]
    norm_num [List.filter]
  refine ⟨hscore, ?_, ?_, ?_⟩
  · simp only [analyze_tech_stack, modernFrameworkRules, legacyFrameworkRules,
      modernFeatureRules, optimizationRules, ruleAny,
      hreact, hjquery, f1, f2, f3, f4, f5, f6, f7, f8, f9, f10, f11, f12, f13,
      f14, f15, f16, f17, f18, f19]
    simp
  · rw [hscore, analyze_tech_stack_max_score]
    norm_num
  · rw [hscore, analyze_tech_stack_max_score, weightOf_tech_stack]
    norm_num

/-- Witness for C5 at the concrete page whose body matches exactly the
React and jQuery rules. -/
theorem tech_stack_react_jquery_mix_witness :
    (analyze_tech_stack techOnlyCtx).score = -1
    ∧ "Mixing modern and legacy technologies (not recommended)"
        ∈ (analyze_tech_stack techOnlyCtx).issues
    ∧ (analyze_tech_stack techOnlyCtx).score / (analyze_tech_stack techOnlyCtx).max_score
        * 100 = -10
    ∧ (analyze_tech_stack techOnlyCtx).score / (analyze_tech_stack techOnlyCtx).max_score
        * 100 * weightOf "tech_stack" / 100 < 0 :=
  tech_stack_react_jquery_mix techOnlyCtx rfl rfl rfl rfl rfl rfl rfl rfl rfl rfl
    rfl rfl rfl rfl rfl rfl rfl rfl rfl rfl rfl

/-- C6: A fetch that returns HTTP status 403 makes `analyze_website`
return the blocked sentinel (the Python `None`, modelled as
`AnalyzeOutcome.blocked`): a first-class outcome with no categories and no
raised exception, distinct from the error record of other failures. -/
theorem blocked_on_403 (inp : Input) (resp : Response)
    (hok : get_with_retry inp.attempts inp.maxRetries = .ok resp)
    (h403 : resp.statusCode = 403) :
    analyze_website inp = .blocked := by
  unfold analyze_website
  rw [hok]
  simp [h403]

/-- Witness for C6: a concrete fetch answering 403. -/
theorem blocked_on_403_witness : analyze_website blockedInput = .blocked :=
  blocked_on_403 blockedInput { statusCode := 403 } rfl rfl

/-- C7: When the certificate probe fails (`probe = none`), the SSL
analyzer does not abort: the certificate increments contribute nothing,
the score is exactly the scheme signal (+2 for HTTPS) plus the
mixed-content signal, an issue is recorded (the probe-failure message on
HTTPS, the no-certificate message on HTTP), and the run still succeeds
with all nine categories present. -/
theorem ssl_probe_failure_degrades_gracefully (inp : Input) (resp : Response)
    (hprobe : inp.probe = none)
    (hok : get_with_retry inp.attempts inp.maxRetries = .ok resp)
    (h403 : resp.statusCode ≠ 403) :
    (check_ssl (inp.ctx resp)).score
        = (if urlIsHttps inp.url then 2 else 0)
          + (if urlIsHttps inp.url ∧ resp.obs.mixedContent = false then 1 else 0)
    ∧ (urlIsHttps inp.url = true →
        "SSL certificate check failed: E" ∈ (check_ssl (inp.ctx resp)).issues)
    ∧ (urlIsHttps inp.url = false →
        "No SSL certificate (using HTTP)" ∈ (check_ssl (inp.ctx resp)).issues)
    ∧ analyze_website inp = .success (buildResult inp resp)
    ∧ (buildResult inp resp).categories.map Prod.fst
        = ["ssl", "mobile", "page_speed", "tech_stack", "ui_quality", "seo",
           "security", "accessibility", "content"] := by
  refine ⟨?_, ?_, ?_, ?_, rfl⟩
  · simp only [check_ssl, Input.ctx, hprobe, sslCertBlock, sslHttpsBlock, sslMixedBlock]
    split_ifs <;> simp_all
  · intro hhttps
    simp only [check_ssl, Input.ctx, hprobe, sslCertBlock, sslHttpsBlock, sslMixedBlock,
      hhttps]
    split_ifs <;> simp_all
  · intro hhttp
    simp only [check_ssl, Input.ctx, hprobe, sslCertBlock, sslHttpsBlock, sslMixedBlock,
      hhttp]
    split_ifs <;> simp_all
  · unfold analyze_website
    rw [hok]
    simp [h403]

/-- Witness for C7: a concrete HTTPS fetch with a failed probe. -/
theorem ssl_probe_failure_degrades_gracefully_witness :
    (check_ssl (probeFailInput.ctx { statusCode := 200 })).score
        = (if urlIsHttps probeFailInput.url then 2 else 0)
          + (if urlIsHttps probeFailInput.url
              ∧ (({ statusCode := 200 } : Response)).obs.mixedContent = false then 1 else 0)
    ∧ (urlIsHttps probeFailInput.url = true →
        "SSL certificate check failed: E"
          ∈ (check_ssl (probeFailInput.ctx { statusCode := 200 })).issues)
    ∧ (urlIsHttps probeFailInput.url = false →
        "No SSL certificate (using HTTP)"
          ∈ (check_ssl (probeFailInput.ctx { statusCode := 200 })).issues)
    ∧ analyze_website probeFailInput
        = .success (buildResult probeFailInput { statusCode := 200 })
    ∧ (buildResult probeFailInput { statusCode := 200 }).categories.map Prod.fst
        = ["ssl", "mobile", "page_speed", "tech_stack", "ui_quality", "seo",
           "security", "accessibility", "content"] :=
  ssl_probe_failure_degrades_gracefully probeFailInput { statusCode := 200 } rfl rfl
    (by decide)

/-- C9: With a probed certificate whose subject fields contain
`jurisdictionCountryName`, the SSL analyzer scores exactly one point more
than on the same input with that subject field removed, and records the
Extended-Validation detail; without the field no point is added (the two
scores coincide). -/
theorem ev_certificate_bonus (ctx : Ctx) (cert : Cert) (hp : ctx.probe = some cert) :
    ("jurisdictionCountryName" ∈ cert.subject →
      (check_ssl ctx).score
          = (check_ssl { ctx with probe := some { cert with
              subject := cert.subject.filter (fun s => s ≠ "jurisdictionCountryName") } }).score
            + 1
        ∧ "Using Extended Validation (EV) certificate" ∈ (check_ssl ctx).details)
    ∧ ("jurisdictionCountryName" ∉ cert.subject →
      (check_ssl ctx).score
          = (check_ssl { ctx with probe := some { cert with
              subject := cert.subject.filter (fun s => s ≠ "jurisdictionCountryName") } }).score) := by
  constructor
  · intro hev
    have hnot : "jurisdictionCountryName"
        ∉ cert.subject.filter (fun s => s ≠ "jurisdictionCountryName") := by
      simp [List.mem_filter]
    constructor
    · simp only [check_ssl, hp, sslCertBlock]
      rw [if_pos hev, if_neg hnot]
      ring
    · simp only [check_ssl, hp, sslCertBlock]
      rw [if_pos hev]
      simp
  · intro hev
    have hfilter : cert.subject.filter (fun s => s ≠ "jurisdictionCountryName")
        = cert.subject := by
      apply List.filter_eq_self.mpr
      intro a ha
      simp only [ne_eq, decide_eq_true_eq]
      exact fun heq => hev (heq ▸ ha)
    simp only [check_ssl, hp, sslCertBlock, hfilter]

/-- Witness for C9 at the concrete EV certificate of `richCtx`. -/
theorem ev_certificate_bonus_witness :
    (check_ssl richCtx).score
        = (check_ssl { richCtx with probe := some { richCert with
            subject := richCert.subject.filter (fun s => s ≠ "jurisdictionCountryName") } }).score
          + 1
      ∧ "Using Extended Validation (EV) certificate" ∈ (check_ssl richCtx).details :=
  (ev_certificate_bonus richCtx richCert rfl).1 (by decide)

/-- Exhausted retries: with every attempt failing, the retry helper
surfaces the error of the last attempt (`max_retries` steps after the
first). -/
theorem getWithRetryAux_all_fail (attempts : Nat → Except String Response)
    (err : Nat → String) (hall : ∀ j, attempts j = .error (err j)) :
    ∀ n i, getWithRetryAux attempts i n = .error (err (i + n)) := by
  intro n
  induction n with
  | zero => intro i; simpa using hall i
  | succ n ih =>
    intro i
    unfold getWithRetryAux
    rw [hall i]
    have h2 := ih (i + 1)
    have heq : i + 1 + n = i + (n + 1) := by omega
    rw [heq] at h2
    exact h2

/-- C10: `analyze_website` is total at its interface: when the fetch
raises on every attempt (a `FetchFailure` after exhausted retries), the
catch-all handler produces the error record `{url, error, timestamp}` —
an `AnalyzeOutcome.errorRecord`, which by construction carries no
categories, no total score and no classification — instead of propagating
the exception. -/
theorem error_record_on_fetch_failure (inp : Input) (err : Nat → String)
    (hall : ∀ j, inp.attempts j = .error (err j)) :
    analyze_website inp
      = .errorRecord inp.url.raw (err inp.maxRetries) inp.clock.timestamp := by
  unfold analyze_website get_with_retry
  rw [getWithRetryAux_all_fail inp.attempts err hall inp.maxRetries 0]
  rw [Nat.zero_add]

/-- Witness for C10: a concrete input whose three attempts all fail. -/
theorem error_record_on_fetch_failure_witness :
    analyze_website failingInput
      = .errorRecord "https://example.com" "Connection error on attempt 2"
          "2025-01-01 00:00:00" :=
  error_record_on_fetch_failure failingInput
    (fun i => "Connection error on attempt " ++ toString i) (fun _ => rfl)

/-! ## Issue inventories

For C8 the issue lists of every other block of the three affected
analyzers are characterized, so that the absence of the image-coverage
messages follows from the block inventories. -/

theorem psLoadBlock_issues (e : ℚ) :
    (psLoadBlock e).issues ⊆ ["Very slow load time (N seconds)"] := by
  unfold psLoadBlock
  try dsimp only
  repeat' split
  all_goals simp

theorem psSizeBlock_issues (n : Nat) :
    (psSizeBlock n).issues ⊆ ["Large HTML size (N KB)"] := by
  unfold psSizeBlock
  try dsimp only
  repeat' split
  all_goals simp

theorem psHintsBlock_issues (doc : List Elem) : (psHintsBlock doc).issues = [] := rfl

theorem psMinifiedBlock_issues (doc : List Elem) :
    (psMinifiedBlock doc).issues ⊆ ["No minified JS or CSS resources detected"] := by
  unfold psMinifiedBlock
  try dsimp only
  repeat' split
  all_goals simp

theorem psCacheBlock_issues (hs : List (String × String)) :
    (psCacheBlock hs).issues ⊆ ["No browser caching headers detected"] := by
  unfold psCacheBlock
  try dsimp only
  repeat' split
  all_goals simp

theorem psCompressionBlock_issues (hs : List (String × String)) :
    (psCompressionBlock hs).issues ⊆ ["No compression detected"] := by
  unfold psCompressionBlock
  try dsimp only
  repeat' split
  all_goals simp

theorem psRenderBlock_issues (doc : List Elem) :
    (psRenderBlock doc).issues ⊆ ["Found render-blocking resources: N JS, N CSS"] := by
  unfold psRenderBlock
  try dsimp only
  repeat' split
  all_goals simp

theorem seoTitleBlock_issues (doc : List Elem) :
    (seoTitleBlock doc).issues
      ⊆ ["Title is too short (N characters)", "Title is too long (N characters)",
         "Missing title tag"] := by
  unfold seoTitleBlock
  try dsimp only
  repeat' split
  all_goals simp

theorem seoDescBlock_issues (doc : List Elem) :
    (seoDescBlock doc).issues
      ⊆ ["Meta description is too short (N characters)",
         "Meta description is too long (N characters)", "Missing meta description"] := by
  unfold seoDescBlock
  try dsimp only
  repeat' split
  all_goals simp

theorem seoCanonicalBlock_issues (doc : List Elem) :
    (seoCanonicalBlock doc).issues ⊆ ["No canonical URL specified"] := by
  unfold seoCanonicalBlock
  try dsimp only
  repeat' split
  all_goals simp

theorem seoH1Block_issues (doc : List Elem) :
    (seoH1Block doc).issues ⊆ ["No H1 tag found", "Multiple H1 tags found (N)"] := by
  unfold seoH1Block
  try dsimp only
  repeat' split
  all_goals simp

theorem seoStructuredBlock_issues (o : HtmlObs) :
    (seoStructuredBlock o).issues ⊆ ["No structured data detected"] := by
  unfold seoStructuredBlock
  try dsimp only
  repeat' split
  all_goals simp

theorem seoOgBlock_issues (doc : List Elem) :
    (seoOgBlock doc).issues ⊆ ["No Open Graph tags found"] := by
  unfold seoOgBlock
  try dsimp only
  repeat' split
  all_goals simp

theorem seoTwitterBlock_issues (doc : List Elem) :
    (seoTwitterBlock doc).issues ⊆ ["No Twitter Card tags found"] := by
  unfold seoTwitterBlock
  try dsimp only
  repeat' split
  all_goals simp

theorem seoCleanUrlBlock_issues (u : Url) : (seoCleanUrlBlock u).issues = [] := by
  unfold seoCleanUrlBlock
  split <;> rfl

theorem seoUrlKeywordBlock_issues (doc : List Elem) (u : Url) :
    (seoUrlKeywordBlock doc u).issues = [] := by
  unfold seoUrlKeywordBlock
  repeat' split
  all_goals rfl

theorem seoRobotsBlock_issues (doc : List Elem) :
    (seoRobotsBlock doc).issues ⊆ ["Page is set to noindex or nofollow"] := by
  unfold seoRobotsBlock
  try dsimp only
  repeat' split
  all_goals simp

theorem seoSitemapBlock_issues (o : HtmlObs) : (seoSitemapBlock o).issues = [] := by
  unfold seoSitemapBlock
  split <;> rfl

theorem accLangBlock_issues (doc : List Elem) :
    (accLangBlock doc).issues ⊆ ["No language attribute specified"] := by
  unfold accLangBlock
  try dsimp only
  repeat' split
  all_goals simp

theorem accLabelBlock_issues (doc : List Elem) :
    (accLabelBlock doc).issues
      ⊆ ["Only N% of form controls have labels", "No form controls have labels"] := by
  unfold accLabelBlock
  try dsimp only
  repeat' split
  all_goals simp

theorem accAriaBlock_issues (doc : List Elem) : (accAriaBlock doc).issues = [] := by
  unfold accAriaBlock
  split <;> rfl

theorem accSkipLinkBlock_issues (doc : List Elem) :
    (accSkipLinkBlock doc).issues ⊆ ["No skip links detected for keyboard navigation"] := by
  unfold accSkipLinkBlock
  try dsimp only
  repeat' split
  all_goals simp

theorem accContrastBlock_issues (o : HtmlObs) :
    (accContrastBlock o).issues
      ⊆ ["Light text on light background detected",
         "Dark text on dark background detected"] := by
  unfold accContrastBlock
  try dsimp only
  repeat' split
  all_goals simp

theorem accTabindexBlock_issues (doc : List Elem) :
    (accTabindexBlock doc).issues
      ⊆ ["N elements removed from keyboard tab order",
         "N elements with custom tab order (tabindex > 0)"] := by
  unfold accTabindexBlock
  try dsimp only
  repeat' split
  all_goals simp

theorem accSemanticBlock_issues (doc : List Elem) :
    (accSemanticBlock doc).issues ⊆ ["No semantic HTML5 elements detected"] := by
  unfold accSemanticBlock
  try dsimp only
  repeat' split
  all_goals simp

theorem accHeadingBlock_issues (doc : List Elem) :
    (accHeadingBlock doc).issues
      ⊆ ["Improper heading hierarchy (skipping levels)", "No H1 heading found"] := by
  unfold accHeadingBlock
  try dsimp only
  repeat' split
  all_goals simp

/-- A string outside a block's inventory is not among its issues. -/
theorem not_mem_of_subset {α : Type} {s : α} {l L : List α}
    (hsub : l ⊆ L) (hnot : s ∉ L) : s ∉ l := fun h => hnot (hsub h)

/-- C8: On a document with zero `img` elements the image-alt scoring
blocks of PageSpeed, SEO and Accessibility are skipped entirely — each
evaluates to the empty contribution, so no percentage (and hence no
division) is formed — and none of the zero-alt-coverage issue messages
appears in the analyzers' issue lists. -/
theorem zero_images_skip_alt_branches (ctx : Ctx)
    (himg : findAll ctx.response.doc "img" = []) :
    psImagesBlock ctx.response.doc = {}
    ∧ seoAltBlock ctx.response.doc = {}
    ∧ accAltBlock ctx.response.doc = {}
    ∧ "No lazy loading detected for images" ∉ (check_page_speed ctx).issues
    ∧ "Poor use of alt text for images" ∉ (check_seo ctx).issues
    ∧ "Only N% of images have alt attributes" ∉ (check_accessibility ctx).issues
    ∧ "No images have alt attributes" ∉ (check_accessibility ctx).issues := by
  have hps : psImagesBlock ctx.response.doc = {} := by unfold psImagesBlock; rw [himg]
  have hseo : seoAltBlock ctx.response.doc = {} := by unfold seoAltBlock; rw [himg]
  have hacc : accAltBlock ctx.response.doc = {} := by unfold accAltBlock; rw [himg]
  refine ⟨hps, hseo, hacc, ?_, ?_, ?_, ?_⟩
  · intro hmem
    have n1 : "No lazy loading detected for images" ∉ (psLoadBlock ctx.response.elapsed).issues :=
      not_mem_of_subset (psLoadBlock_issues _) (by simp)
    have n2 : "No lazy loading detected for images" ∉ (psSizeBlock ctx.response.htmlLen).issues :=
      not_mem_of_subset (psSizeBlock_issues _) (by simp)
    have n3 : "No lazy loading detected for images" ∉ (psMinifiedBlock ctx.response.doc).issues :=
      not_mem_of_subset (psMinifiedBlock_issues _) (by simp)
    have n4 : "No lazy loading detected for images" ∉ (psCacheBlock ctx.response.headers).issues :=
      not_mem_of_subset (psCacheBlock_issues _) (by simp)
    have n5 : "No lazy loading detected for images" ∉ (psCompressionBlock ctx.response.headers).issues :=
      not_mem_of_subset (psCompressionBlock_issues _) (by simp)
    have n6 : "No lazy loading detected for images" ∉ (psRenderBlock ctx.response.doc).issues :=
      not_mem_of_subset (psRenderBlock_issues _) (by simp)
    simp only [check_page_speed, hps, psHintsBlock_issues, List.mem_append,
      List.not_mem_nil, or_false, false_or, n1, n2, n3, n4, n5, n6] at hmem
  · intro hmem
    have n1 : "Poor use of alt text for images" ∉ (seoTitleBlock ctx.response.doc).issues :=
      not_mem_of_subset (seoTitleBlock_issues _) (by simp)
    have n2 : "Poor use of alt text for images" ∉ (seoDescBlock ctx.response.doc).issues :=
      not_mem_of_subset (seoDescBlock_issues _) (by simp)
    have n3 : "Poor use of alt text for images" ∉ (seoCanonicalBlock ctx.response.doc).issues :=
      not_mem_of_subset (seoCanonicalBlock_issues _) (by simp)
    have n4 : "Poor use of alt text for images" ∉ (seoH1Block ctx.response.doc).issues :=
      not_mem_of_subset (seoH1Block_issues _) (by simp)
    have n5 : "Poor use of alt text for images" ∉ (seoStructuredBlock ctx.response.obs).issues :=
      not_mem_of_subset (seoStructuredBlock_issues _) (by simp)
    have n6 : "Poor use of alt text for images" ∉ (seoOgBlock ctx.response.doc).issues :=
      not_mem_of_subset (seoOgBlock_issues _) (by simp)
    have n7 : "Poor use of alt text for images" ∉ (seoTwitterBlock ctx.response.doc).issues :=
      not_mem_of_subset (seoTwitterBlock_issues _) (by simp)
    have n8 : "Poor use of alt text for images" ∉ (seoRobotsBlock ctx.response.doc).issues :=
      not_mem_of_subset (seoRobotsBlock_issues _) (by simp)
    simp only [check_seo, hseo, seoCleanUrlBlock_issues, seoUrlKeywordBlock_issues,
      seoSitemapBlock_issues, List.mem_append, List.not_mem_nil, or_false,
      false_or, List.append_nil, n1, n2, n3, n4, n5, n6, n7, n8] at hmem
  · intro hmem
    have n1 : "Only N% of images have alt attributes" ∉ (accLangBlock ctx.response.doc).issues :=
      not_mem_of_subset (accLangBlock_issues _) (by simp)
    have n2 : "Only N% of images have alt attributes" ∉ (accLabelBlock ctx.response.doc).issues :=
      not_mem_of_subset (accLabelBlock_issues _) (by simp)
    have n3 : "Only N% of images have alt attributes" ∉ (accSkipLinkBlock ctx.response.doc).issues :=
      not_mem_of_subset (accSkipLinkBlock_issues _) (by simp)
    have n4 : "Only N% of images have alt attributes" ∉ (accContrastBlock ctx.response.obs).issues :=
      not_mem_of_subset (accContrastBlock_issues _) (by simp)
    have n5 : "Only N% of images have alt attributes" ∉ (accTabindexBlock ctx.response.doc).issues :=
      not_mem_of_subset (accTabindexBlock_issues _) (by simp)
    have n6 : "Only N% of images have alt attributes" ∉ (accSemanticBlock ctx.response.doc).issues :=
      not_mem_of_subset (accSemanticBlock_issues _) (by simp)
    have n7 : "Only N% of images have alt attributes" ∉ (accHeadingBlock ctx.response.doc).issues :=
      not_mem_of_subset (accHeadingBlock_issues _) (by simp)
    simp only [check_accessibility, hacc, accAriaBlock_issues, List.mem_append,
      List.not_mem_nil, or_false, false_or, List.append_nil,
      n1, n2, n3, n4, n5, n6, n7] at hmem
  · intro hmem
    have n1 : "No images have alt attributes" ∉ (accLangBlock ctx.response.doc).issues :=
      not_mem_of_subset (accLangBlock_issues _) (by simp)
    have n2 : "No images have alt attributes" ∉ (accLabelBlock ctx.response.doc).issues :=
      not_mem_of_subset (accLabelBlock_issues _) (by simp)
    have n3 : "No images have alt attributes" ∉ (accSkipLinkBlock ctx.response.doc).issues :=
      not_mem_of_subset (accSkipLinkBlock_issues _) (by simp)
    have n4 : "No images have alt attributes" ∉ (accContrastBlock ctx.response.obs).issues :=
      not_mem_of_subset (accContrastBlock_issues _) (by simp)
    have n5 : "No images have alt attributes" ∉ (accTabindexBlock ctx.response.doc).issues :=
      not_mem_of_subset (accTabindexBlock_issues _) (by simp)
    have n6 : "No images have alt attributes" ∉ (accSemanticBlock ctx.response.doc).issues :=
      not_mem_of_subset (accSemanticBlock_issues _) (by simp)
    have n7 : "No images have alt attributes" ∉ (accHeadingBlock ctx.response.doc).issues :=
      not_mem_of_subset (accHeadingBlock_issues _) (by simp)
    simp only [check_accessibility, hacc, accAriaBlock_issues, List.mem_append,
      List.not_mem_nil, or_false, false_or, List.append_nil,
      n1, n2, n3, n4, n5, n6, n7] at hmem

/-- Witness for C8 at the concrete image-free page. -/
theorem zero_images_skip_alt_branches_witness :
    psImagesBlock noImgCtx.response.doc = {}
    ∧ seoAltBlock noImgCtx.response.doc = {}
    ∧ accAltBlock noImgCtx.response.doc = {}
    ∧ "No lazy loading detected for images" ∉ (check_page_speed noImgCtx).issues
    ∧ "Poor use of alt text for images" ∉ (check_seo noImgCtx).issues
    ∧ "Only N% of images have alt attributes" ∉ (check_accessibility noImgCtx).issues
    ∧ "No images have alt attributes" ∉ (check_accessibility noImgCtx).issues :=
  zero_images_skip_alt_branches noImgCtx rfl

end WebsiteGrader
